import Mathlib

/-!
A verification development for the local research-entity store of the
`research_pilot` repository (`trion/tools/storage/articles.py`,
`trion/tools/storage/career.py`, `assistant/tools/storage/grants.py`).

The three storage modules persist rows in SQLite tables.  The embedding
models a table as the list of its rows in insertion order, and each
operation as a pure function on that list, translated statement by
statement from the Python source.  The SQLite behaviour relied upon is:
an `INSERT` that violates a `UNIQUE` or `NOT NULL` constraint raises
`sqlite3.IntegrityError` and writes nothing (two `NULL`s never violate a
`UNIQUE` constraint); the modules catch that error and report a skip.
Wall-clock timestamps (`datetime.now().isoformat()`) are threaded in as
an explicit argument.  Record inputs model Python dicts whose present
fields hold string (or numeric / boolean) values; an absent field is
`none`.
-/

namespace ResearchPilot

/-! ### Python string ordering

Python compares strings lexicographically by code point.  `charListLt`
is that comparison on the underlying character lists; `strLeB` is the
derived `<=`, used to model Python's `sorted`. -/

/-- Lexicographic code-point comparison of character lists, as Python
compares strings. -/
def charListLt : List Char → List Char → Bool
  | _, [] => false
  | [], _ :: _ => true
  | a :: as, b :: bs => if a < b then true else if b < a then false else charListLt as bs

/-- The total order `x <= y` on strings induced by `charListLt`. -/
def strLeB (x y : String) : Bool := !charListLt y.data x.data

/-- Insert a string into a list so that a sorted list stays sorted;
folding it over a collection is insertion sort, which agrees with
Python's `sorted` on duplicate-free collections. -/
def insertSorted (x : String) : List String → List String
  | [] => [x]
  | y :: ys => if strLeB x y then x :: y :: ys else y :: insertSorted x ys

instance : LeftCommutative insertSorted := by
  constructor
  have hIrr : ∀ x : List Char, charListLt x x = false := by
    intro x
    induction x with
    | nil => rfl
    | cons c cs ih => simp [charListLt, ih]
  have hConn : ∀ x y : List Char, charListLt x y = false → charListLt y x = false → x = y := by
    intro x
    induction x with
    | nil =>
      intro y h1 _
      cases y with
      | nil => rfl
      | cons d ds => simp [charListLt] at h1
    | cons c cs ih =>
      intro y h1 h2
      cases y with
      | nil => simp [charListLt] at h2
      | cons d ds =>
        simp only [charListLt] at h1 h2
        by_cases hcd : c < d
        · simp [hcd] at h1
        · by_cases hdc : d < c
          · simp [hdc, hcd] at h2
          · have hce : c = d := le_antisymm (not_lt.mp hdc) (not_lt.mp hcd)
            subst hce
            simp [hcd] at h1 h2
            rw [ih ds h1 h2]
  have hTr : ∀ x y z : List Char,
      charListLt x y = true → charListLt y z = true → charListLt x z = true := by
    intro x
    induction x with
    | nil =>
      intro y z h1 h2
      cases z with
      | nil =>
        cases y with
        | nil => exact h1
        | cons d ds => simp [charListLt] at h2
      | cons e es => simp [charListLt]
    | cons c cs ih =>
      intro y z h1 h2
      cases y with
      | nil => simp [charListLt] at h1
      | cons d ds =>
        cases z with
        | nil => simp [charListLt] at h2
        | cons e es =>
          simp only [charListLt] at h1 h2 ⊢
          by_cases hcd : c < d
          · by_cases hde : d < e
            · simp [lt_trans hcd hde]
            · by_cases hed : e < d
              · simp [hde, hed] at h2
              · have hde' : d = e := le_antisymm (not_lt.mp hed) (not_lt.mp hde)
                subst hde'
                simp [hcd]
          · by_cases hdc : d < c
            · simp [hcd, hdc] at h1
            · have hcd' : c = d := le_antisymm (not_lt.mp hdc) (not_lt.mp hcd)
              subst hcd'
              simp [hcd] at h1
              by_cases hce : c < e
              · simp [hce]
              · by_cases hec : e < c
                · simp [hce, hec] at h2
                · have hce' : c = e := le_antisymm (not_lt.mp hec) (not_lt.mp hce)
                  subst hce'
                  simp [hce] at h2 ⊢
                  exact ih ds es h1 h2
  have hdataEq : ∀ x y : String, x.data = y.data → x = y := by
    intro x y h
    exact congrArg String.mk h
  have hleTot : ∀ x y : String, strLeB x y = false → strLeB y x = true := by
    intro x y h
    simp only [strLeB, Bool.not_eq_false'] at h
    simp only [strLeB, Bool.not_eq_true']
    cases hxy : charListLt x.data y.data
    · rfl
    · have := hTr _ _ _ h hxy
      rw [hIrr] at this
      exact this.symm
  have hleAnti : ∀ x y : String, strLeB x y = true → strLeB y x = true → x = y := by
    intro x y h1 h2
    simp only [strLeB, Bool.not_eq_true'] at h1 h2
    exact hdataEq x y (hConn _ _ h2 h1)
  have hleXlt : ∀ x y z : String, strLeB y z = true → strLeB x z = false → strLeB x y = false := by
    intro x y z h1 h2
    simp only [strLeB, Bool.not_eq_true'] at h1
    simp only [strLeB, Bool.not_eq_false'] at h2
    simp only [strLeB, Bool.not_eq_false']
    cases hyz : charListLt y.data z.data
    · have := hdataEq y z (hConn _ _ hyz h1)
      subst this
      exact h2
    · exact hTr _ _ _ hyz h2
  intro a b l
  induction l with
  | nil =>
    simp only [insertSorted]
    by_cases hab : strLeB a b
    · by_cases hba : strLeB b a
      · rw [hleAnti a b hab hba]
      · simp [insertSorted, hab, hba]
    · have hba := hleTot a b (Bool.of_not_eq_true hab)
      simp [insertSorted, hab, hba]
  | cons z zs ih =>
    simp only [insertSorted]
    by_cases haz : strLeB a z
    · by_cases hbz : strLeB b z
      · -- both insert at the head
        simp only [insertSorted, hbz, if_pos, haz]
        by_cases hab : strLeB a b
        · by_cases hba : strLeB b a
          · rw [hleAnti a b hab hba]
          · simp [insertSorted, hab, hba, haz, hbz]
        · have hba := hleTot a b (Bool.of_not_eq_true hab)
          simp [insertSorted, hab, hba, haz, hbz]
      · -- b goes past z, a stays at the head
        have hab : strLeB a b = true := by
          cases h : strLeB a b
          · have := hleXlt b a z haz (Bool.of_not_eq_true hbz)
            rw [hleTot a b h] at this
            exact absurd this (by simp)
          · rfl
        have hba : strLeB b a = false := by
          cases h : strLeB b a
          · rfl
          · rw [hleAnti b a h hab] at hbz
            exact absurd haz (by simp [hbz])
        simp [insertSorted, hab, hba, haz, hbz]
    · by_cases hbz : strLeB b z
      · -- a goes past z, b stays at the head
        have hba : strLeB b a = true := by
          cases h : strLeB b a
          · have := hleXlt a b z hbz (Bool.of_not_eq_true haz)
            rw [hleTot b a h] at this
            exact absurd this (by simp)
          · rfl
        have hab : strLeB a b = false := by
          cases h : strLeB a b
          · rfl
          · rw [hleAnti a b h hba] at haz
            exact absurd hbz (by simp [haz])
        simp [insertSorted, hab, hba, haz, hbz]
      · -- both go past z
        simp [insertSorted, haz, hbz, ih]

/-- The sorted list of a finite set of strings, modelling Python's
`sorted(tag_set)`. -/
def sortTags (s : Finset String) : List String :=
  Multiset.foldr insertSorted [] s.1

/-! ### Tag algebra

Modelled from `tag_paper` (articles.py), `tag_grant` (grants.py) and
`update_job_status` (career.py): tag strings are split on `','`
(`current_tags.split(',')`), empty tokens are discarded
(`.discard('')`), and tag sets are re-serialized by `','.join(...)`,
sorted where the source sorts. -/

/-- Split a character list at every `','`, as Python's `str.split(',')`:
`splitCommaAux s acc` processes `s` with `acc` holding the reversed
current token. -/
def splitCommaAux : List Char → List Char → List String
  | [], acc => [String.mk acc.reverse]
  | c :: cs, acc =>
    if c = ',' then String.mk acc.reverse :: splitCommaAux cs []
    else splitCommaAux cs (c :: acc)

/-- Python `s.split(',')`. -/
def splitComma (s : String) : List String := splitCommaAux s.data []

/-- The character list of `','.join(l)`. -/
def joinCommaChars : List String → List Char
  | [] => []
  | [t] => t.data
  | t :: ts => t.data ++ ',' :: joinCommaChars ts

/-- Python `','.join(l)`. -/
def joinComma (l : List String) : String := String.mk (joinCommaChars l)

/-- Parse a stored tag string into a tag set: split on commas and drop
empty tokens, as `set(current_tags.split(','))` followed by
`.discard('')`.  The source guards with `if current_tags` first, which
gives the same value on the empty string. -/
def parseTags (s : String) : Finset String := (splitComma s).toFinset.erase ""

/-- Serialize a tag set canonically: `','.join(sorted(tag_set))`. -/
def serializeTags (s : Finset String) : String := joinComma (sortTags s)

/-- Tag update of `tag_paper` (articles.py lines 456-470): a `tags`
argument replaces the whole set, otherwise the current set is extended
with `add_tags` and then stripped of `remove_tags`; either way the
result is stored as `','.join(sorted(new_tags_set))`. -/
def applyTagEditPaper (current : String)
    (tags add_tags remove_tags : Option (List String)) : String :=
  match tags with
  | some ts => serializeTags ts.toFinset
  | none =>
      serializeTags
        ((parseTags current ∪ (add_tags.getD []).toFinset) \ (remove_tags.getD []).toFinset)

/-- Tag update of `tag_grant` (grants.py lines 499-511): a `tags`
argument is stored as the raw `','.join(tags)`; otherwise, when
`add_tags` or `remove_tags` is non-empty, the edited set is stored
sorted; otherwise the stored string is left unchanged. -/
def applyTagEditGrant (current : String)
    (tags add_tags remove_tags : Option (List String)) : String :=
  match tags with
  | some ts => joinComma ts
  | none =>
      if add_tags.getD [] = [] ∧ remove_tags.getD [] = [] then current
      else
        serializeTags
          ((parseTags current ∪ (add_tags.getD []).toFinset) \ (remove_tags.getD []).toFinset)

/-- Tag update of `update_job_status` (career.py lines 513-525), whose
tag handling is identical to `tag_grant`. -/
def applyTagEditJob (current : String)
    (tags add_tags remove_tags : Option (List String)) : String :=
  applyTagEditGrant current tags add_tags remove_tags

/-! ### Record inputs, rows and upserters -/

/-- Python truthiness of an optional string: `None` and `''` are falsy. -/
def truthyOptStr : Option String → Bool
  | none => false
  | some s => !decide (s = "")

/-- Python truthiness of an optional integer: `None` and `0` are falsy. -/
def truthyOptInt : Option Int → Bool
  | none => false
  | some n => !decide (n = 0)

/-- Python truthiness of an optional list: `None` and `[]` are falsy. -/
def truthyOptList : Option (List String) → Bool
  | none => false
  | some l => !decide (l = [])

/-- Whether two nullable column values violate a SQLite `UNIQUE`
constraint: only two equal non-`NULL` values collide. -/
def optConflict (a b : Option String) : Bool :=
  match a, b with
  | some x, some y => decide (x = y)
  | _, _ => false

/-- Identifier extraction of `save_paper` (articles.py lines 175-179):
`paper_dict.get('pmid', 'N/A')` followed by
`None if pmid == 'N/A' else str(pmid)`. -/
def extractId : Option String → Option String
  | none => none
  | some s => if s = "N/A" then none else some s

/-- An input record for `save_paper`: a dict whose present fields are
strings; an absent key is `none`. -/
structure PaperInput where
  pmid : Option String := none
  arxiv_id : Option String := none
  doi : Option String := none
  title : Option String := none
  authors : Option String := none
  year : Option String := none
  date : Option String := none
  journal : Option String := none
  volume : Option String := none
  issue : Option String := none
  pages : Option String := none
  abstract : Option String := none
  url : Option String := none
  doi_url : Option String := none
  source : Option String := none
deriving DecidableEq

/-- A row of the `papers` table (articles.py lines 90-126): `pmid` and
`arxiv_id` are nullable `UNIQUE` columns, the other descriptive columns
are filled with the `'N/A'` defaults of the insert. -/
structure PaperRow where
  pmid : Option String
  arxiv_id : Option String
  doi : String
  title : String
  authors : String
  year : String
  date : String
  journal : String
  volume : String
  issue : String
  pages : String
  abstract : String
  url : String
  doi_url : String
  source : String
  tags : String
  notes : Option String
  added_timestamp : String
deriving DecidableEq

/-- The row inserted by `save_paper` (articles.py lines 190-215):
descriptive fields default to `'N/A'` via `paper_dict.get(...)`, tags
are stored as `','.join(tags)` (empty for no tags). -/
def mkPaperRow (p : PaperInput) (tags : List String) (notes : Option String)
    (ts : String) : PaperRow :=
  { pmid := extractId p.pmid
    arxiv_id := extractId p.arxiv_id
    doi := p.doi.getD "N/A"
    title := p.title.getD "N/A"
    authors := p.authors.getD "N/A"
    year := p.year.getD "N/A"
    date := p.date.getD "N/A"
    journal := p.journal.getD "N/A"
    volume := p.volume.getD "N/A"
    issue := p.issue.getD "N/A"
    pages := p.pages.getD "N/A"
    abstract := p.abstract.getD "N/A"
    url := p.url.getD "N/A"
    doi_url := p.doi_url.getD "N/A"
    source := p.source.getD "N/A"
    tags := joinComma tags
    notes := notes
    added_timestamp := ts }

/-- Whether inserting `row` next to an existing row `r` violates the
`UNIQUE` constraint on `pmid` or on `arxiv_id`. -/
def paperConflict (row r : PaperRow) : Bool :=
  optConflict row.pmid r.pmid || optConflict row.arxiv_id r.arxiv_id

/-- Whether a paper record passes the natural-key check of
`save_paper` (articles.py line 182): `not (not pmid and not arxiv_id)`
on the extracted identifiers. -/
def paperPopulated (p : PaperInput) : Bool :=
  truthyOptStr (extractId p.pmid) || truthyOptStr (extractId p.arxiv_id)

/-- `save_paper` (articles.py lines 141-231): refuse a record with
neither identifier populated; otherwise attempt the insert, and on a
`sqlite3.IntegrityError` (duplicate `pmid` or `arxiv_id`) return
`False` leaving the table untouched.  Returns the flag together with
the table after the call. -/
def save_paper (store : List PaperRow) (paper : PaperInput) (tags : List String)
    (notes : Option String) (ts : String) : Bool × List PaperRow :=
  let row := mkPaperRow paper tags notes ts
  if !truthyOptStr row.pmid && !truthyOptStr row.arxiv_id then (false, store)
  else if store.any (fun r => paperConflict row r) then (false, store)
  else (true, store ++ [row])

/-- The three counters returned by the batch savers:
`{'saved': N, 'skipped': N, 'errors': N}`. -/
structure BatchStats where
  saved : Nat
  skipped : Nat
  errors : Nat
deriving DecidableEq

/-- `save_papers_batch` (articles.py lines 234-265): one `save_paper`
call per record, `True` counted as saved and `False` as skipped; the
`errors` counter counts exceptions escaping `save_paper`, which the
model (no I/O failures) never produces. -/
def save_papers_batch (store : List PaperRow) (papers : List PaperInput)
    (tags : List String) (ts : String) : BatchStats × List PaperRow :=
  match papers with
  | [] => (⟨0, 0, 0⟩, store)
  | p :: rest =>
    let res := save_paper store p tags none ts
    let acc := save_papers_batch res.2 rest tags ts
    if res.1 then (⟨acc.1.saved + 1, acc.1.skipped, acc.1.errors⟩, acc.2)
    else (⟨acc.1.saved, acc.1.skipped + 1, acc.1.errors⟩, acc.2)

/-- An input record for `save_grant`. -/
structure GrantInput where
  project_num : Option String := none
  title : Option String := none
  pi_names : Option String := none
  contact_pi_name : Option String := none
  organization : Option String := none
  org_city : Option String := none
  org_state : Option String := none
  org_country : Option String := none
  fiscal_year : Option Int := none
  award_amount : Option Int := none
  award_notice_date : Option String := none
  project_start_date : Option String := none
  project_end_date : Option String := none
  abstract : Option String := none
  phr : Option String := none
  agency : Option String := none
  activity_code : Option String := none
  opportunity_number : Option String := none
  full_study_section : Option String := none
  url : Option String := none
  source : Option String := none
deriving DecidableEq

/-- A row of the `grants` table (grants.py lines 71-117): `project_num`
is `UNIQUE NOT NULL`, `title` is `NOT NULL`, `source` defaults to
`'NIH RePORTER'`. -/
structure GrantRow where
  project_num : Option String
  title : Option String
  pi_names : Option String
  contact_pi_name : Option String
  organization : Option String
  org_city : Option String
  org_state : Option String
  org_country : Option String
  fiscal_year : Option Int
  award_amount : Option Int
  award_notice_date : Option String
  project_start_date : Option String
  project_end_date : Option String
  abstract : Option String
  phr : Option String
  agency : Option String
  activity_code : Option String
  opportunity_number : Option String
  full_study_section : Option String
  url : Option String
  source : String
  tags : String
  notes : Option String
  added_timestamp : String
deriving DecidableEq

/-- The row inserted by `save_grant` (grants.py lines 197-232). -/
def mkGrantRow (g : GrantInput) (tags : List String) (notes : Option String)
    (ts : String) : GrantRow :=
  { project_num := g.project_num
    title := g.title
    pi_names := g.pi_names
    contact_pi_name := g.contact_pi_name
    organization := g.organization
    org_city := g.org_city
    org_state := g.org_state
    org_country := g.org_country
    fiscal_year := g.fiscal_year
    award_amount := g.award_amount
    award_notice_date := g.award_notice_date
    project_start_date := g.project_start_date
    project_end_date := g.project_end_date
    abstract := g.abstract
    phr := g.phr
    agency := g.agency
    activity_code := g.activity_code
    opportunity_number := g.opportunity_number
    full_study_section := g.full_study_section
    url := g.url
    source := g.source.getD "NIH RePORTER"
    tags := joinComma tags
    notes := notes
    added_timestamp := ts }

/-- `save_grant` (grants.py lines 152-246): attempt the insert; a
`NOT NULL` violation (`project_num` or `title` absent) or a duplicate
`project_num` raises `sqlite3.IntegrityError`, caught to return `False`
with nothing written. -/
def save_grant (store : List GrantRow) (grant : GrantInput) (tags : List String)
    (notes : Option String) (ts : String) : Bool × List GrantRow :=
  let row := mkGrantRow grant tags notes ts
  if row.project_num.isNone || row.title.isNone then (false, store)
  else if store.any (fun r => optConflict row.project_num r.project_num) then (false, store)
  else (true, store ++ [row])

/-- `save_grants_batch` (grants.py lines 249-283). -/
def save_grants_batch (store : List GrantRow) (grants : List GrantInput)
    (tags : List String) (ts : String) : BatchStats × List GrantRow :=
  match grants with
  | [] => (⟨0, 0, 0⟩, store)
  | g :: rest =>
    let res := save_grant store g tags none ts
    let acc := save_grants_batch res.2 rest tags ts
    if res.1 then (⟨acc.1.saved + 1, acc.1.skipped, acc.1.errors⟩, acc.2)
    else (⟨acc.1.saved, acc.1.skipped + 1, acc.1.errors⟩, acc.2)

/-- An input record for `save_job`. -/
structure JobInput where
  title : Option String := none
  company : Option String := none
  location : Option String := none
  url : Option String := none
  description : Option String := none
  date_posted : Option String := none
  job_type : Option String := none
  salary_min : Option Int := none
  salary_max : Option Int := none
  salary_currency : Option String := none
  is_remote : Option Bool := none
  company_url : Option String := none
  platform : Option String := none
deriving DecidableEq

/-- A row of the `jobs` table (career.py lines 71-106): `title` and
`company` are `NOT NULL`, `url` is a nullable `UNIQUE` column. -/
structure JobRow where
  title : Option String
  company : Option String
  location : Option String
  url : Option String
  description : Option String
  date_posted : Option String
  job_type : Option String
  salary_min : Option Int
  salary_max : Option Int
  salary_currency : Option String
  is_remote : Bool
  company_url : Option String
  platform : String
  tags : String
  notes : Option String
  status : String
  added_timestamp : String
deriving DecidableEq

/-- The row inserted by `save_job` (career.py lines 191-217):
`is_remote` defaults to `False` and `platform` to `'unknown'`. -/
def mkJobRow (j : JobInput) (tags : List String) (notes : Option String)
    (status : String) (ts : String) : JobRow :=
  { title := j.title
    company := j.company
    location := j.location
    url := j.url
    description := j.description
    date_posted := j.date_posted
    job_type := j.job_type
    salary_min := j.salary_min
    salary_max := j.salary_max
    salary_currency := j.salary_currency
    is_remote := j.is_remote.getD false
    company_url := j.company_url
    platform := j.platform.getD "unknown"
    tags := joinComma tags
    notes := notes
    status := status
    added_timestamp := ts }

/-- `save_job` (career.py lines 144-231): attempt the insert; a
missing `title` or `company` (`NOT NULL`) or a duplicate non-`NULL`
`url` raises `sqlite3.IntegrityError`, caught to return `False` with
nothing written.  There is no natural-key check before the insert: a
record without a `url` inserts as a row with `url = NULL`. -/
def save_job (store : List JobRow) (job : JobInput) (tags : List String)
    (notes : Option String) (status : String) (ts : String) : Bool × List JobRow :=
  let row := mkJobRow job tags notes status ts
  if row.title.isNone || row.company.isNone then (false, store)
  else if store.any (fun r => optConflict row.url r.url) then (false, store)
  else (true, store ++ [row])

/-- `save_jobs_batch` (career.py lines 234-281): fills in the
`platform` column when the input lacks it, then one `save_job` per
record. -/
def save_jobs_batch (store : List JobRow) (jobs : List JobInput)
    (tags : List String) (status : String) (platform : String)
    (ts : String) : BatchStats × List JobRow :=
  match jobs with
  | [] => (⟨0, 0, 0⟩, store)
  | j :: rest =>
    let j' := if j.platform.isNone then { j with platform := some platform } else j
    let res := save_job store j' tags none status ts
    let acc := save_jobs_batch res.2 rest tags status platform ts
    if res.1 then (⟨acc.1.saved + 1, acc.1.skipped, acc.1.errors⟩, acc.2)
    else (⟨acc.1.saved, acc.1.skipped + 1, acc.1.errors⟩, acc.2)

/-! ### Search predicates

SQLite's `LIKE` matches a `'%t%'` pattern when `t` occurs as a
substring, comparing ASCII letters case-insensitively. -/

/-- Lower-case an ASCII letter, as SQLite's default `LIKE` folds case. -/
def asciiLowerChar (c : Char) : Char :=
  if 'A' ≤ c ∧ c ≤ 'Z' then Char.ofNat (c.toNat + 32) else c

/-- SQL `hay LIKE '%' || needle || '%'`: the needle occurs as a
substring of the hay, ASCII-case-insensitively. -/
def likeContains (needle hay : String) : Bool :=
  (hay.data.map asciiLowerChar).tails.any
    (fun t => (needle.data.map asciiLowerChar).isPrefixOf t)

/-- The tags clause of `search_papers_db` / `load_papers` (articles.py
lines 300-304 and 369-372): one `AND tags LIKE ?` per filter tag, so a
row matches when every filter tag occurs in its tag string. -/
def paperTagsWhere (tags : List String) (r : PaperRow) : Bool :=
  tags.all (fun t => likeContains t r.tags)

/-- The rows of the `papers` table satisfying a tags-only
`search_papers_db` filter. -/
def searchPapersByTags (store : List PaperRow) (tags : List String) : List PaperRow :=
  store.filter (paperTagsWhere tags)

/-- The tags clause of `search_grants_db` / `load_grants` (grants.py
lines 324-328 and 410-414): `tags LIKE ?` clauses joined by `OR`, so a
row matches when at least one filter tag occurs in its tag string. -/
def grantTagsWhere (tags : List String) (r : GrantRow) : Bool :=
  tags.any (fun t => likeContains t r.tags)

/-- The rows of the `grants` table satisfying a tags-only
`search_grants_db` filter. -/
def searchGrantsByTags (store : List GrantRow) (tags : List String) : List GrantRow :=
  store.filter (grantTagsWhere tags)

/-- The tags clause of `search_jobs_db` / `load_jobs` (career.py lines
324-328 and 417-421): `tags LIKE ?` clauses joined by `OR`. -/
def jobTagsWhere (tags : List String) (r : JobRow) : Bool :=
  tags.any (fun t => likeContains t r.tags)

/-- The rows of the `jobs` table satisfying a tags-only
`search_jobs_db` filter. -/
def searchJobsByTags (store : List JobRow) (tags : List String) : List JobRow :=
  store.filter (jobTagsWhere tags)

/-! ### SQL text construction -/

/-- A value bound to a `?` placeholder. -/
inductive SqlValue
  | str (s : String)
  | int (n : Int)
deriving DecidableEq

/-- A built query: its SQL text and the list of bound parameters. -/
structure SqlQuery where
  text : String
  params : List SqlValue
deriving DecidableEq

/-- Python `sep.join(l)`. -/
def sepJoin (sep : String) : List String → String
  | [] => ""
  | [t] => t
  | t :: ts => t ++ sep ++ sepJoin sep ts

/-- Query construction of `load_papers` (articles.py lines 292-309):
`source` and each tag are appended as `?` placeholders with the value
pushed onto `params`, while a truthy `limit` is interpolated into the
text by `f" LIMIT {limit}"`. -/
def buildLoadPapersQuery (limit : Option Int) (tags : Option (List String))
    (source : Option String) : SqlQuery :=
  let tlist := tags.getD []
  let text0 := "SELECT * FROM papers WHERE 1=1"
  let text1 := if truthyOptStr source then text0 ++ " AND source = ?" else text0
  let params1 : List SqlValue :=
    if truthyOptStr source then [SqlValue.str (source.getD "")] else []
  let text2 :=
    if truthyOptList tags then tlist.foldl (fun q _ => q ++ " AND tags LIKE ?") text1
    else text1
  let params2 :=
    if truthyOptList tags then
      params1 ++ tlist.map (fun tag => SqlValue.str ("%" ++ tag ++ "%"))
    else params1
  let text3 := text2 ++ " ORDER BY added_timestamp DESC"
  let text4 :=
    if truthyOptInt limit then text3 ++ " LIMIT " ++ toString (limit.getD 0) else text3
  { text := text4, params := params2 }

/-- Query construction of `load_jobs` (career.py lines 320-345): tags,
status, platform and `is_remote` are bound parameters, a truthy
`limit` is interpolated into the text by `f" LIMIT {limit}"`. -/
def buildLoadJobsQuery (limit : Option Int) (tags : Option (List String))
    (status platform : Option String) (is_remote : Option Bool) : SqlQuery :=
  let tlist := tags.getD []
  let q0 := "SELECT * FROM jobs WHERE 1=1"
  let q1 :=
    if truthyOptList tags then
      q0 ++ " AND (" ++ sepJoin " OR " (tlist.map (fun _ => "tags LIKE ?")) ++ ")"
    else q0
  let p1 : List SqlValue :=
    if truthyOptList tags then tlist.map (fun tag => SqlValue.str ("%" ++ tag ++ "%"))
    else []
  let q2 := if truthyOptStr status then q1 ++ " AND status = ?" else q1
  let p2 := if truthyOptStr status then p1 ++ [SqlValue.str (status.getD "")] else p1
  let q3 := if truthyOptStr platform then q2 ++ " AND platform = ?" else q2
  let p3 := if truthyOptStr platform then p2 ++ [SqlValue.str (platform.getD "")] else p2
  let q4 := if is_remote.isSome then q3 ++ " AND is_remote = ?" else q3
  let p4 :=
    if is_remote.isSome then p3 ++ [SqlValue.int (if is_remote.getD false then 1 else 0)]
    else p3
  let q5 := q4 ++ " ORDER BY added_timestamp DESC"
  let q6 := if truthyOptInt limit then q5 ++ " LIMIT " ++ toString (limit.getD 0) else q5
  { text := q6, params := p4 }

/-- Query construction of `load_grants` (grants.py lines 317-343):
tags, agency and fiscal year are bound parameters, a truthy `limit` is
interpolated into the text by `f" LIMIT {limit}"`. -/
def buildLoadGrantsQuery (limit : Option Int) (tags : Option (List String))
    (agency : Option String) (fiscal_year : Option Int) : SqlQuery :=
  let tlist := tags.getD []
  let q0 := "SELECT * FROM grants WHERE 1=1"
  let q1 :=
    if truthyOptList tags then
      q0 ++ " AND (" ++ sepJoin " OR " (tlist.map (fun _ => "tags LIKE ?")) ++ ")"
    else q0
  let p1 : List SqlValue :=
    if truthyOptList tags then tlist.map (fun tag => SqlValue.str ("%" ++ tag ++ "%"))
    else []
  let q2 := if truthyOptStr agency then q1 ++ " AND agency = ?" else q1
  let p2 := if truthyOptStr agency then p1 ++ [SqlValue.str (agency.getD "")] else p1
  let q3 := if truthyOptInt fiscal_year then q2 ++ " AND fiscal_year = ?" else q2
  let p3 :=
    if truthyOptInt fiscal_year then p2 ++ [SqlValue.int (fiscal_year.getD 0)] else p2
  let q4 := q3 ++ " ORDER BY added_timestamp DESC"
  let q5 := if truthyOptInt limit then q4 ++ " LIMIT " ++ toString (limit.getD 0) else q4
  { text := q5, params := p3 }

/-- Query construction of `search_papers_db` (articles.py lines
356-386): the keyword pattern `f"%{keywords}%"` is bound three times
(title, abstract, authors), each tag adds an `AND tags LIKE ?` clause,
the year bounds and source are bound parameters; there is no limit. -/
def buildSearchPapersQuery (keywords : Option String) (tags : Option (List String))
    (year_from year_to : Option Int) (source : Option String) : SqlQuery :=
  let tlist := tags.getD []
  let kw := SqlValue.str ("%" ++ keywords.getD "" ++ "%")
  let q0 := "SELECT * FROM papers WHERE 1=1"
  let q1 :=
    if truthyOptStr keywords then
      q0 ++ " AND (\n            title LIKE ? OR\n            abstract LIKE ? OR\n            authors LIKE ?\n        )"
    else q0
  let p1 : List SqlValue := if truthyOptStr keywords then [kw, kw, kw] else []
  let q2 :=
    if truthyOptList tags then tlist.foldl (fun q _ => q ++ " AND tags LIKE ?") q1 else q1
  let p2 :=
    if truthyOptList tags then p1 ++ tlist.map (fun tag => SqlValue.str ("%" ++ tag ++ "%"))
    else p1
  let q3 := if truthyOptInt year_from then q2 ++ " AND CAST(year AS INTEGER) >= ?" else q2
  let p3 := if truthyOptInt year_from then p2 ++ [SqlValue.int (year_from.getD 0)] else p2
  let q4 := if truthyOptInt year_to then q3 ++ " AND CAST(year AS INTEGER) <= ?" else q3
  let p4 := if truthyOptInt year_to then p3 ++ [SqlValue.int (year_to.getD 0)] else p3
  let q5 := if truthyOptStr source then q4 ++ " AND source = ?" else q4
  let p5 := if truthyOptStr source then p4 ++ [SqlValue.str (source.getD "")] else p4
  let q6 := q5 ++ " ORDER BY year DESC, added_timestamp DESC"
  { text := q6, params := p5 }

/-- Query construction of `search_grants_db` (grants.py lines
392-432): the keyword pattern is bound four times (title, abstract,
PI names, organization), tags are `OR`-joined `LIKE` clauses, the
fiscal-year and award-amount bounds are bound parameters; there is no
limit. -/
def buildSearchGrantsQuery (keywords : Option String) (tags : Option (List String))
    (fiscal_year_from fiscal_year_to award_amount_min award_amount_max : Option Int) :
    SqlQuery :=
  let tlist := tags.getD []
  let kw := SqlValue.str ("%" ++ keywords.getD "" ++ "%")
  let q0 := "SELECT * FROM grants WHERE 1=1"
  let q1 :=
    if truthyOptStr keywords then
      q0 ++ " AND (\n                title LIKE ? OR\n                abstract LIKE ? OR\n                pi_names LIKE ? OR\n                organization LIKE ?\n            )"
    else q0
  let p1 : List SqlValue := if truthyOptStr keywords then [kw, kw, kw, kw] else []
  let q2 :=
    if truthyOptList tags then
      q1 ++ " AND (" ++ sepJoin " OR " (tlist.map (fun _ => "tags LIKE ?")) ++ ")"
    else q1
  let p2 :=
    if truthyOptList tags then p1 ++ tlist.map (fun tag => SqlValue.str ("%" ++ tag ++ "%"))
    else p1
  let q3 := if truthyOptInt fiscal_year_from then q2 ++ " AND fiscal_year >= ?" else q2
  let p3 :=
    if truthyOptInt fiscal_year_from then p2 ++ [SqlValue.int (fiscal_year_from.getD 0)]
    else p2
  let q4 := if truthyOptInt fiscal_year_to then q3 ++ " AND fiscal_year <= ?" else q3
  let p4 :=
    if truthyOptInt fiscal_year_to then p3 ++ [SqlValue.int (fiscal_year_to.getD 0)]
    else p3
  let q5 := if truthyOptInt award_amount_min then q4 ++ " AND award_amount >= ?" else q4
  let p5 :=
    if truthyOptInt award_amount_min then p4 ++ [SqlValue.int (award_amount_min.getD 0)]
    else p4
  let q6 := if truthyOptInt award_amount_max then q5 ++ " AND award_amount <= ?" else q5
  let p6 :=
    if truthyOptInt award_amount_max then p5 ++ [SqlValue.int (award_amount_max.getD 0)]
    else p5
  let q7 := q6 ++ " ORDER BY award_amount DESC"
  { text := q7, params := p6 }

/-- Query construction of `search_jobs_db` (career.py lines 396-435):
the keyword pattern is bound three times (title, description,
company), the location pattern once, tags are `OR`-joined `LIKE`
clauses, the job type is a bound parameter, a present `salary_min`
(checked with `is not None`, so `0` counts) is bound twice, and a
present `is_remote` binds `1` or `0`; there is no limit.  The numeric
salary (a Python float) is modelled as an integer. -/
def buildSearchJobsQuery (keywords location : Option String) (tags : Option (List String))
    (job_type : Option String) (salary_min : Option Int) (is_remote : Option Bool) :
    SqlQuery :=
  let tlist := tags.getD []
  let kw := SqlValue.str ("%" ++ keywords.getD "" ++ "%")
  let q0 := "SELECT * FROM jobs WHERE 1=1"
  let q1 :=
    if truthyOptStr keywords then
      q0 ++ " AND (\n                title LIKE ? OR\n                description LIKE ? OR\n                company LIKE ?\n            )"
    else q0
  let p1 : List SqlValue := if truthyOptStr keywords then [kw, kw, kw] else []
  let q2 := if truthyOptStr location then q1 ++ " AND location LIKE ?" else q1
  let p2 :=
    if truthyOptStr location then p1 ++ [SqlValue.str ("%" ++ location.getD "" ++ "%")]
    else p1
  let q3 :=
    if truthyOptList tags then
      q2 ++ " AND (" ++ sepJoin " OR " (tlist.map (fun _ => "tags LIKE ?")) ++ ")"
    else q2
  let p3 :=
    if truthyOptList tags then p2 ++ tlist.map (fun tag => SqlValue.str ("%" ++ tag ++ "%"))
    else p2
  let q4 := if truthyOptStr job_type then q3 ++ " AND job_type = ?" else q3
  let p4 := if truthyOptStr job_type then p3 ++ [SqlValue.str (job_type.getD "")] else p3
  let q5 :=
    if salary_min.isSome then q4 ++ " AND (salary_min >= ? OR salary_max >= ?)" else q4
  let p5 :=
    if salary_min.isSome then
      p4 ++ [SqlValue.int (salary_min.getD 0), SqlValue.int (salary_min.getD 0)]
    else p4
  let q6 := if is_remote.isSome then q5 ++ " AND is_remote = ?" else q5
  let p6 :=
    if is_remote.isSome then p5 ++ [SqlValue.int (if is_remote.getD false then 1 else 0)]
    else p5
  let q7 := q6 ++ " ORDER BY added_timestamp DESC"
  { text := q7, params := p6 }

/-! ### Identifier-addressed access to papers -/

/-- Column selection shared by `tag_paper`, `get_paper_by_id` and
`delete_paper` (articles.py lines 434-441, 507-513, 545-551): under
`'auto'`, an identifier containing `'.'` is treated as an arXiv id,
any other as a PMID. -/
def resolveIdType (paper_id : String) (id_type : String) : String :=
  if id_type = "auto" then
    if paper_id.data.contains '.' then "arxiv_id" else "pmid"
  else if id_type = "arxiv" then "arxiv_id"
  else if id_type = "pmid" then "pmid"
  else id_type

/-- The row predicate of `SELECT ... WHERE {col} = ?`: a `NULL` column
never equals a bound value. -/
def paperKeyMatches (col : String) (paper_id : String) (r : PaperRow) : Bool :=
  if col = "arxiv_id" then decide (r.arxiv_id = some paper_id)
  else if col = "pmid" then decide (r.pmid = some paper_id)
  else false

/-- The stored row an identifier-addressed paper operation acts on. -/
def lookupPaper (store : List PaperRow) (paper_id : String) (id_type : String) :
    Option PaperRow :=
  store.find? (paperKeyMatches (resolveIdType paper_id id_type) paper_id)

/-! ### Concrete fixtures used by witnesses and counterexamples -/

/-- A batch of five valid paper records plus one record with no
natural-key field populated. -/
def c2Batch : List PaperInput :=
  [ { pmid := some "1", title := some "P1" },
    { pmid := some "2", title := some "P2" },
    { pmid := some "3", title := some "P3" },
    { pmid := some "4", title := some "P4" },
    { pmid := some "5", title := some "P5" },
    { title := some "no identifiers" } ]

/-- The first stored paper of the C1 witness scenario. -/
def w1Row : PaperRow := mkPaperRow { pmid := some "7", title := some "orig" } ["keep"] none "t0"

/-- A job record with `title` and `company` but no `url`. -/
def jobNoUrl : JobInput := { title := some "T", company := some "C" }

/-- A paper record with neither a `pmid` nor an `arxiv_id`. -/
def paperNoIds : PaperInput := { title := some "X" }

/-- A stored grant tagged `genomics`. -/
def grantG1 : GrantRow :=
  mkGrantRow { project_num := some "G1", title := some "CRISPR gene editing" }
    ["genomics"] none "t0"

/-- A stored grant tagged `physics`. -/
def grantG2 : GrantRow :=
  mkGrantRow { project_num := some "G2", title := some "quantum computing" }
    ["physics"] none "t0"

/-- A stored paper tagged `genomics`. -/
def paperGen : PaperRow :=
  mkPaperRow { pmid := some "11", title := some "CRISPR gene editing" } ["genomics"] none "t0"

/-- A stored paper whose `arxiv_id` is `2301.07041`. -/
def paperArx : PaperRow :=
  mkPaperRow { arxiv_id := some "2301.07041", title := some "A" } [] none "t0"

/-- A stored paper whose `pmid` is the dotted string `9.9`. -/
def paperDotPmid : PaperRow :=
  mkPaperRow { pmid := some "9.9", title := some "B" } [] none "t0"

/-- A PMID-keyed paper record for the idempotence witness. -/
def p6a : PaperInput := { pmid := some "21", title := some "A" }

/-- An arXiv-keyed paper record for the idempotence witness. -/
def p6b : PaperInput := { arxiv_id := some "2301.1", title := some "B" }

/-! ### Lemmas on the tag algebra -/

theorem splitCommaAux_no_comma (t : List Char) (acc : List Char) (h : ',' ∉ t) :
    splitCommaAux t acc = [String.mk (acc.reverse ++ t)] := by
  induction t generalizing acc with
  | nil => simp [splitCommaAux]
  | cons c cs ih =>
    have hc : ¬c = ',' := fun hc => h (hc ▸ List.mem_cons_self c cs)
    simp only [splitCommaAux, if_neg hc]
    rw [ih (c :: acc) (fun hm => h (List.mem_cons_of_mem c hm))]
    simp [List.reverse_cons, List.append_assoc]

theorem splitCommaAux_append (t rest acc : List Char) (h : ',' ∉ t) :
    splitCommaAux (t ++ ',' :: rest) acc =
      String.mk (acc.reverse ++ t) :: splitCommaAux rest [] := by
  induction t generalizing acc with
  | nil => simp [splitCommaAux]
  | cons c cs ih =>
    have hc : ¬c = ',' := fun hc => h (hc ▸ List.mem_cons_self c cs)
    simp only [List.cons_append, splitCommaAux, if_neg hc, List.append_eq]
    rw [ih (c :: acc) (fun hm => h (List.mem_cons_of_mem c hm))]
    simp [List.reverse_cons, List.append_assoc]

theorem splitComma_joinComma (l : List String) (hne : l ≠ [])
    (h : ∀ t ∈ l, ',' ∉ t.data) :
    splitComma (joinComma l) = l := by
  induction l with
  | nil => exact absurd rfl hne
  | cons t ts ih =>
    cases ts with
    | nil =>
      show splitCommaAux t.data [] = [t]
      rw [splitCommaAux_no_comma t.data [] (h t (List.mem_cons_self t []))]
      rfl
    | cons u us =>
      show splitCommaAux (t.data ++ ',' :: joinCommaChars (u :: us)) [] = t :: u :: us
      rw [splitCommaAux_append t.data _ [] (h t (List.mem_cons_self t _))]
      have h2 : splitCommaAux (joinCommaChars (u :: us)) [] = u :: us :=
        ih (by simp) (fun x hx => h x (List.mem_cons_of_mem t hx))
      rw [h2]
      rfl

theorem no_comma_of_mem_splitCommaAux (s : List Char) (acc : List Char)
    (hacc : ',' ∉ acc) (t : String) (ht : t ∈ splitCommaAux s acc) :
    ',' ∉ t.data := by
  induction s generalizing acc with
  | nil =>
    simp only [splitCommaAux, List.mem_singleton] at ht
    subst ht
    show ',' ∉ acc.reverse
    simpa using hacc
  | cons c cs ih =>
    simp only [splitCommaAux] at ht
    by_cases hc : c = ','
    · rw [if_pos hc] at ht
      rcases List.mem_cons.mp ht with h1 | h2
      · subst h1
        show ',' ∉ acc.reverse
        simpa using hacc
      · exact ih [] (by simp) h2
    · rw [if_neg hc] at ht
      refine ih (c :: acc) ?_ ht
      intro hm
      rcases List.mem_cons.mp hm with h1 | h1
      · exact hc h1.symm
      · exact hacc h1

theorem infix_of_mem_splitCommaAux (s acc : List Char) (t : String)
    (ht : t ∈ splitCommaAux s acc) : t.data <:+: acc.reverse ++ s := by
  induction s generalizing acc with
  | nil =>
    simp only [splitCommaAux, List.mem_singleton] at ht
    subst ht
    exact ⟨[], [], by simp⟩
  | cons c cs ih =>
    simp only [splitCommaAux] at ht
    by_cases hc : c = ','
    · subst hc
      rw [if_pos rfl] at ht
      rcases List.mem_cons.mp ht with h1 | h2
      · subst h1
        exact ⟨[], ',' :: cs, by simp⟩
      · have h1 := ih [] h2
        simp only [List.reverse_nil, List.nil_append] at h1
        have h3 : cs <:+: acc.reverse ++ ',' :: cs := ⟨acc.reverse ++ [','], [], by simp⟩
        exact h1.trans h3
    · rw [if_neg hc] at ht
      have h1 := ih (c :: acc) ht
      simpa [List.append_assoc] using h1

theorem parseTags_tokens (s t : String) (ht : t ∈ parseTags s) :
    t ≠ "" ∧ ',' ∉ t.data := by
  rcases Finset.mem_erase.mp ht with ⟨hne, hmem⟩
  exact ⟨hne, no_comma_of_mem_splitCommaAux s.data [] (by simp) t (List.mem_toFinset.mp hmem)⟩

theorem mem_insertSorted (x a : String) (l : List String) :
    a ∈ insertSorted x l ↔ a = x ∨ a ∈ l := by
  induction l with
  | nil => simp [insertSorted]
  | cons y ys ih =>
    simp only [insertSorted]
    by_cases h : strLeB x y
    · simp [h, List.mem_cons]
    · simp only [h, if_neg, Bool.false_eq_true, not_false_eq_true, List.mem_cons, ih]
      tauto

theorem mem_sortTags (s : Finset String) (a : String) : a ∈ sortTags s ↔ a ∈ s := by
  have hx : ∀ m : Multiset String, a ∈ Multiset.foldr insertSorted [] m ↔ a ∈ m := by
    intro m
    induction m using Multiset.induction_on with
    | empty => simp
    | cons x t ih => rw [Multiset.foldr_cons, mem_insertSorted]; simp [ih]
  exact (hx s.1).trans (Finset.mem_def).symm

theorem sortTags_ne_nil (s : Finset String) (hs : s.Nonempty) : sortTags s ≠ [] := by
  rcases hs with ⟨a, ha⟩
  exact List.ne_nil_of_mem ((mem_sortTags s a).mpr ha)

theorem parse_serialize (s : Finset String)
    (h : ∀ t ∈ s, t ≠ "" ∧ ',' ∉ t.data) :
    parseTags (serializeTags s) = s := by
  by_cases hs : s = ∅
  · subst hs
    decide
  · have hnil : sortTags s ≠ [] := sortTags_ne_nil s (Finset.nonempty_iff_ne_empty.mpr hs)
    have hmem : ∀ t ∈ sortTags s, ',' ∉ t.data := fun t ht =>
      (h t ((mem_sortTags s t).mp ht)).2
    unfold parseTags serializeTags
    rw [splitComma_joinComma (sortTags s) hnil hmem]
    have htf : (sortTags s).toFinset = s := by
      apply Finset.ext
      intro a
      rw [List.mem_toFinset, mem_sortTags]
    rw [htf]
    apply Finset.erase_eq_of_not_mem
    intro hmem0
    exact (h "" hmem0).1 rfl

theorem likeContains_of_mem_parseTags (s t : String) (ht : t ∈ parseTags s) :
    likeContains t s = true := by
  have hinf : t.data <:+: s.data := by
    have h1 := infix_of_mem_splitCommaAux s.data [] t
      (List.mem_toFinset.mp (Finset.mem_of_mem_erase ht))
    simpa using h1
  rcases hinf with ⟨pre, post, heq⟩
  unfold likeContains
  rw [List.any_eq_true]
  refine ⟨t.data.map asciiLowerChar ++ post.map asciiLowerChar, ?_, ?_⟩
  · rw [List.mem_tails]
    refine ⟨pre.map asciiLowerChar, ?_⟩
    rw [← List.append_assoc, ← List.map_append, ← List.map_append, heq]
  · exact List.isPrefixOf_iff_prefix.mpr ⟨post.map asciiLowerChar, rfl⟩

/-! ### Lemmas on the upserters and batch importers -/

theorem optConflict_symm (a b : Option String) : optConflict a b = optConflict b a := by
  cases a with
  | none =>
    cases b with
    | none => rfl
    | some y => rfl
  | some x =>
    cases b with
    | none => rfl
    | some y =>
      simp only [optConflict]
      exact decide_eq_decide.mpr ⟨Eq.symm, Eq.symm⟩

theorem paperConflict_symm (a b : PaperRow) : paperConflict a b = paperConflict b a := by
  unfold paperConflict
  rw [optConflict_symm a.pmid b.pmid, optConflict_symm a.arxiv_id b.arxiv_id]

theorem optConflict_self (v : Option String) (h : truthyOptStr v = true) :
    optConflict v v = true := by
  cases v with
  | none => exact absurd h (by simp [truthyOptStr])
  | some s => simp [optConflict]

theorem paperConflict_self (p : PaperInput) (tg₁ tg₂ : List String)
    (n₁ n₂ : Option String) (t₁ t₂ : String) (h : paperPopulated p = true) :
    paperConflict (mkPaperRow p tg₁ n₁ t₁) (mkPaperRow p tg₂ n₂ t₂) = true := by
  unfold paperPopulated at h
  have e1 : (mkPaperRow p tg₁ n₁ t₁).pmid = extractId p.pmid := rfl
  have e2 : (mkPaperRow p tg₂ n₂ t₂).pmid = extractId p.pmid := rfl
  have e3 : (mkPaperRow p tg₁ n₁ t₁).arxiv_id = extractId p.arxiv_id := rfl
  have e4 : (mkPaperRow p tg₂ n₂ t₂).arxiv_id = extractId p.arxiv_id := rfl
  unfold paperConflict
  rw [e1, e2, e3, e4]
  rcases (Bool.or_eq_true _ _).mp h with h1 | h1
  · rw [optConflict_self _ h1]
    simp
  · rw [optConflict_self _ h1]
    simp

theorem save_paper_created (store : List PaperRow) (p : PaperInput) (tags : List String)
    (notes : Option String) (ts : String) (hpop : paperPopulated p = true)
    (hnc : ∀ r ∈ store, paperConflict (mkPaperRow p tags notes ts) r = false) :
    save_paper store p tags notes ts = (true, store ++ [mkPaperRow p tags notes ts]) := by
  have h1 : (!truthyOptStr (mkPaperRow p tags notes ts).pmid &&
      !truthyOptStr (mkPaperRow p tags notes ts).arxiv_id) = false := by
    have e1 : (mkPaperRow p tags notes ts).pmid = extractId p.pmid := rfl
    have e2 : (mkPaperRow p tags notes ts).arxiv_id = extractId p.arxiv_id := rfl
    rw [e1, e2]
    unfold paperPopulated at hpop
    rcases (Bool.or_eq_true _ _).mp hpop with h | h <;> simp [h]
  have h2 : (store.any fun r => paperConflict (mkPaperRow p tags notes ts) r) = false := by
    rw [List.any_eq_false]
    intro r hr
    simp [hnc r hr]
  simp only [save_paper, h1, h2]
  simp

theorem save_paper_skipped (store : List PaperRow) (p : PaperInput) (tags : List String)
    (notes : Option String) (ts : String)
    (hc : ∃ r ∈ store, paperConflict (mkPaperRow p tags notes ts) r = true) :
    save_paper store p tags notes ts = (false, store) := by
  have h2 : (store.any fun r => paperConflict (mkPaperRow p tags notes ts) r) = true := by
    rw [List.any_eq_true]
    rcases hc with ⟨r, hr, h⟩
    exact ⟨r, hr, h⟩
  cases hval : (!truthyOptStr (mkPaperRow p tags notes ts).pmid &&
      !truthyOptStr (mkPaperRow p tags notes ts).arxiv_id) with
  | false =>
    simp only [save_paper, hval, h2]
    simp
  | true =>
    simp only [save_paper, hval]
    simp

theorem save_grant_skipped (store : List GrantRow) (g : GrantInput) (tags : List String)
    (notes : Option String) (ts : String)
    (hc : ∃ r ∈ store, optConflict (mkGrantRow g tags notes ts).project_num r.project_num = true) :
    save_grant store g tags notes ts = (false, store) := by
  have h2 : (store.any fun r =>
      optConflict (mkGrantRow g tags notes ts).project_num r.project_num) = true := by
    rw [List.any_eq_true]
    rcases hc with ⟨r, hr, h⟩
    exact ⟨r, hr, h⟩
  cases hval : ((mkGrantRow g tags notes ts).project_num.isNone ||
      (mkGrantRow g tags notes ts).title.isNone) with
  | false =>
    simp only [save_grant, hval, h2]
    simp
  | true =>
    simp only [save_grant, hval]
    simp

theorem save_job_skipped (store : List JobRow) (j : JobInput) (tags : List String)
    (notes : Option String) (status ts : String)
    (hc : ∃ r ∈ store, optConflict (mkJobRow j tags notes status ts).url r.url = true) :
    save_job store j tags notes status ts = (false, store) := by
  have h2 : (store.any fun r =>
      optConflict (mkJobRow j tags notes status ts).url r.url) = true := by
    rw [List.any_eq_true]
    rcases hc with ⟨r, hr, h⟩
    exact ⟨r, hr, h⟩
  cases hval : ((mkJobRow j tags notes status ts).title.isNone ||
      (mkJobRow j tags notes status ts).company.isNone) with
  | false =>
    simp only [save_job, hval, h2]
    simp
  | true =>
    simp only [save_job, hval]
    simp

theorem save_papers_batch_total (store : List PaperRow) (papers : List PaperInput)
    (tags : List String) (ts : String) :
    (save_papers_batch store papers tags ts).1.saved
      + (save_papers_batch store papers tags ts).1.skipped
      + (save_papers_batch store papers tags ts).1.errors = papers.length := by
  induction papers generalizing store with
  | nil => simp [save_papers_batch]
  | cons p rest ih =>
    have h2 := ih (save_paper store p tags none ts).2
    cases hval : (save_paper store p tags none ts).1 <;>
      simp only [save_papers_batch, hval, Bool.false_eq_true, if_true, if_false] <;>
      simp <;> omega

theorem save_grants_batch_total (store : List GrantRow) (grants : List GrantInput)
    (tags : List String) (ts : String) :
    (save_grants_batch store grants tags ts).1.saved
      + (save_grants_batch store grants tags ts).1.skipped
      + (save_grants_batch store grants tags ts).1.errors = grants.length := by
  induction grants generalizing store with
  | nil => simp [save_grants_batch]
  | cons g rest ih =>
    have h2 := ih (save_grant store g tags none ts).2
    cases hval : (save_grant store g tags none ts).1 <;>
      simp only [save_grants_batch, hval, Bool.false_eq_true, if_true, if_false] <;>
      simp <;> omega

theorem save_jobs_batch_total (store : List JobRow) (jobs : List JobInput)
    (tags : List String) (status platform ts : String) :
    (save_jobs_batch store jobs tags status platform ts).1.saved
      + (save_jobs_batch store jobs tags status platform ts).1.skipped
      + (save_jobs_batch store jobs tags status platform ts).1.errors = jobs.length := by
  induction jobs generalizing store with
  | nil => simp [save_jobs_batch]
  | cons j rest ih =>
    simp only [save_jobs_batch]
    generalize (if j.platform.isNone then { j with platform := some platform } else j) = j'
    have h2 := ih (save_job store j' tags none status ts).2
    cases hval : (save_job store j' tags none status ts).1 <;>
      simp only [hval, Bool.false_eq_true, if_true, if_false] <;>
      simp <;> omega

theorem save_papers_batch_all_new (papers : List PaperInput) (tags : List String)
    (ts : String) :
    ∀ store : List PaperRow,
      (∀ p ∈ papers, paperPopulated p = true) →
      (∀ p ∈ papers, ∀ r ∈ store, paperConflict (mkPaperRow p tags none ts) r = false) →
      papers.Pairwise (fun p q =>
        paperConflict (mkPaperRow p tags none ts) (mkPaperRow q tags none ts) = false) →
      save_papers_batch store papers tags ts =
        (⟨papers.length, 0, 0⟩, store ++ papers.map (fun p => mkPaperRow p tags none ts)) := by
  induction papers with
  | nil =>
    intro store _ _ _
    simp [save_papers_batch]
  | cons p rest ih =>
    intro store hpop hstore hdist
    have hsave := save_paper_created store p tags none ts (hpop p (List.mem_cons_self p rest))
      (fun r hr => hstore p (List.mem_cons_self p rest) r hr)
    rcases List.pairwise_cons.mp hdist with ⟨hhead, htail⟩
    have hstore' : ∀ q ∈ rest, ∀ r ∈ store ++ [mkPaperRow p tags none ts],
        paperConflict (mkPaperRow q tags none ts) r = false := by
      intro q hq r hr
      rcases List.mem_append.mp hr with h | h
      · exact hstore q (List.mem_cons_of_mem p hq) r h
      · rw [List.mem_singleton] at h
        subst h
        rw [paperConflict_symm]
        exact hhead q hq
    have hrec := ih (store ++ [mkPaperRow p tags none ts])
      (fun q hq => hpop q (List.mem_cons_of_mem p hq)) hstore' htail
    simp only [save_papers_batch, hsave]
    rw [hrec]
    simp [List.append_assoc]

theorem save_papers_batch_all_dup (papers : List PaperInput) (tags : List String)
    (ts : String) (store : List PaperRow) :
    (∀ p ∈ papers, ∃ r ∈ store, paperConflict (mkPaperRow p tags none ts) r = true) →
    save_papers_batch store papers tags ts = (⟨0, papers.length, 0⟩, store) := by
  induction papers with
  | nil =>
    intro _
    simp [save_papers_batch]
  | cons p rest ih =>
    intro hdup
    have hsk := save_paper_skipped store p tags none ts (hdup p (List.mem_cons_self p rest))
    simp only [save_papers_batch, hsk]
    rw [ih (fun q hq => hdup q (List.mem_cons_of_mem p hq))]
    simp

/-! ### Further helper lemmas -/

theorem serializeTags_canonical (s : Finset String)
    (h : ∀ t ∈ s, t ≠ "" ∧ ',' ∉ t.data) :
    serializeTags (parseTags (serializeTags s)) = serializeTags s := by
  rw [parse_serialize s h]

theorem editSet_tokens (current : String) (add rm : List String)
    (hadd : ∀ t ∈ add, t ≠ "" ∧ ',' ∉ t.data) :
    ∀ t ∈ (parseTags current ∪ add.toFinset) \ rm.toFinset, t ≠ "" ∧ ',' ∉ t.data := by
  intro t ht
  rcases Finset.mem_sdiff.mp ht with ⟨hmem, _⟩
  rcases Finset.mem_union.mp hmem with h1 | h1
  · exact parseTags_tokens current t h1
  · exact hadd t (List.mem_toFinset.mp h1)

theorem foldl_like_text (t1 t2 : List String) (q : String) (h : t1.length = t2.length) :
    t1.foldl (fun s _ => s ++ " AND tags LIKE ?") q
      = t2.foldl (fun s _ => s ++ " AND tags LIKE ?") q := by
  induction t1 generalizing t2 q with
  | nil =>
    cases t2 with
    | nil => rfl
    | cons b bs => simp at h
  | cons a as ih =>
    cases t2 with
    | nil => simp at h
    | cons b bs =>
      simp only [List.foldl_cons]
      exact ih bs _ (by simpa using h)

theorem sepJoin_const (t1 t2 : List String) (h : t1.length = t2.length) :
    sepJoin " OR " (t1.map fun _ => "tags LIKE ?")
      = sepJoin " OR " (t2.map fun _ => "tags LIKE ?") := by
  have hmap : ∀ l : List String,
      (l.map fun _ => ("tags LIKE ?" : String)) = List.replicate l.length "tags LIKE ?" := by
    intro l
    induction l with
    | nil => rfl
    | cons x xs ih => simp [List.replicate_succ, ih]
  rw [hmap, hmap, h]

theorem buildLoadPapersQuery_text (limit : Option Int) (t1 t2 : Option (List String))
    (s1 s2 : Option String)
    (ht : truthyOptList t1 = truthyOptList t2)
    (hlen : (t1.getD []).length = (t2.getD []).length)
    (hs : truthyOptStr s1 = truthyOptStr s2) :
    (buildLoadPapersQuery limit t1 s1).text = (buildLoadPapersQuery limit t2 s2).text := by
  simp only [buildLoadPapersQuery]
  rw [← ht, ← hs, foldl_like_text (t1.getD []) (t2.getD []) _ hlen]

theorem buildLoadPapersQuery_params (limit : Option Int) (tags : Option (List String))
    (source : Option String) :
    (buildLoadPapersQuery limit tags source).params
      = (if truthyOptStr source then [SqlValue.str (source.getD "")] else [])
        ++ (if truthyOptList tags then
            (tags.getD []).map (fun tag => SqlValue.str ("%" ++ tag ++ "%")) else []) := by
  simp only [buildLoadPapersQuery]
  split_ifs <;> simp

theorem buildLoadGrantsQuery_text (limit : Option Int) (t1 t2 : Option (List String))
    (a1 a2 : Option String) (f1 f2 : Option Int)
    (ht : truthyOptList t1 = truthyOptList t2)
    (hlen : (t1.getD []).length = (t2.getD []).length)
    (ha : truthyOptStr a1 = truthyOptStr a2)
    (hf : truthyOptInt f1 = truthyOptInt f2) :
    (buildLoadGrantsQuery limit t1 a1 f1).text = (buildLoadGrantsQuery limit t2 a2 f2).text := by
  simp only [buildLoadGrantsQuery]
  rw [← ht, ← ha, ← hf, sepJoin_const (t1.getD []) (t2.getD []) hlen]

theorem buildLoadGrantsQuery_params (limit : Option Int) (tags : Option (List String))
    (agency : Option String) (fiscal_year : Option Int) :
    (buildLoadGrantsQuery limit tags agency fiscal_year).params
      = (if truthyOptList tags then
          (tags.getD []).map (fun tag => SqlValue.str ("%" ++ tag ++ "%")) else [])
        ++ (if truthyOptStr agency then [SqlValue.str (agency.getD "")] else [])
        ++ (if truthyOptInt fiscal_year then [SqlValue.int (fiscal_year.getD 0)] else []) := by
  simp only [buildLoadGrantsQuery]
  split_ifs <;> simp

theorem buildLoadJobsQuery_text (limit : Option Int) (t1 t2 : Option (List String))
    (st1 st2 pl1 pl2 : Option String) (ir1 ir2 : Option Bool)
    (ht : truthyOptList t1 = truthyOptList t2)
    (hlen : (t1.getD []).length = (t2.getD []).length)
    (hst : truthyOptStr st1 = truthyOptStr st2)
    (hpl : truthyOptStr pl1 = truthyOptStr pl2)
    (hir : ir1.isSome = ir2.isSome) :
    (buildLoadJobsQuery limit t1 st1 pl1 ir1).text
      = (buildLoadJobsQuery limit t2 st2 pl2 ir2).text := by
  simp only [buildLoadJobsQuery]
  rw [← ht, ← hst, ← hpl, ← hir, sepJoin_const (t1.getD []) (t2.getD []) hlen]

theorem buildLoadJobsQuery_params (limit : Option Int) (tags : Option (List String))
    (status platform : Option String) (is_remote : Option Bool) :
    (buildLoadJobsQuery limit tags status platform is_remote).params
      = (if truthyOptList tags then
          (tags.getD []).map (fun tag => SqlValue.str ("%" ++ tag ++ "%")) else [])
        ++ (if truthyOptStr status then [SqlValue.str (status.getD "")] else [])
        ++ (if truthyOptStr platform then [SqlValue.str (platform.getD "")] else [])
        ++ (if is_remote.isSome then
            [SqlValue.int (if is_remote.getD false then 1 else 0)] else []) := by
  simp only [buildLoadJobsQuery]
  split_ifs <;> simp

theorem buildSearchPapersQuery_text (k1 k2 : Option String) (t1 t2 : Option (List String))
    (yf1 yf2 yt1 yt2 : Option Int) (s1 s2 : Option String)
    (hk : truthyOptStr k1 = truthyOptStr k2)
    (ht : truthyOptList t1 = truthyOptList t2)
    (hlen : (t1.getD []).length = (t2.getD []).length)
    (hyf : truthyOptInt yf1 = truthyOptInt yf2)
    (hyt : truthyOptInt yt1 = truthyOptInt yt2)
    (hs : truthyOptStr s1 = truthyOptStr s2) :
    (buildSearchPapersQuery k1 t1 yf1 yt1 s1).text
      = (buildSearchPapersQuery k2 t2 yf2 yt2 s2).text := by
  simp only [buildSearchPapersQuery]
  rw [← hk, ← ht, ← hyf, ← hyt, ← hs,
    foldl_like_text (t1.getD []) (t2.getD []) _ hlen]

theorem buildSearchPapersQuery_params (keywords : Option String) (tags : Option (List String))
    (year_from year_to : Option Int) (source : Option String) :
    (buildSearchPapersQuery keywords tags year_from year_to source).params
      = (if truthyOptStr keywords then
          [SqlValue.str ("%" ++ keywords.getD "" ++ "%"),
           SqlValue.str ("%" ++ keywords.getD "" ++ "%"),
           SqlValue.str ("%" ++ keywords.getD "" ++ "%")] else [])
        ++ (if truthyOptList tags then
            (tags.getD []).map (fun tag => SqlValue.str ("%" ++ tag ++ "%")) else [])
        ++ (if truthyOptInt year_from then [SqlValue.int (year_from.getD 0)] else [])
        ++ (if truthyOptInt year_to then [SqlValue.int (year_to.getD 0)] else [])
        ++ (if truthyOptStr source then [SqlValue.str (source.getD "")] else []) := by
  simp only [buildSearchPapersQuery]
  split_ifs <;> simp

theorem buildSearchGrantsQuery_text (k1 k2 : Option String) (t1 t2 : Option (List String))
    (ff1 ff2 ft1 ft2 am1 am2 ax1 ax2 : Option Int)
    (hk : truthyOptStr k1 = truthyOptStr k2)
    (ht : truthyOptList t1 = truthyOptList t2)
    (hlen : (t1.getD []).length = (t2.getD []).length)
    (hff : truthyOptInt ff1 = truthyOptInt ff2)
    (hft : truthyOptInt ft1 = truthyOptInt ft2)
    (ham : truthyOptInt am1 = truthyOptInt am2)
    (hax : truthyOptInt ax1 = truthyOptInt ax2) :
    (buildSearchGrantsQuery k1 t1 ff1 ft1 am1 ax1).text
      = (buildSearchGrantsQuery k2 t2 ff2 ft2 am2 ax2).text := by
  simp only [buildSearchGrantsQuery]
  rw [← hk, ← ht, ← hff, ← hft, ← ham, ← hax,
    sepJoin_const (t1.getD []) (t2.getD []) hlen]

theorem buildSearchGrantsQuery_params (keywords : Option String) (tags : Option (List String))
    (fiscal_year_from fiscal_year_to award_amount_min award_amount_max : Option Int) :
    (buildSearchGrantsQuery keywords tags fiscal_year_from fiscal_year_to
        award_amount_min award_amount_max).params
      = (if truthyOptStr keywords then
          [SqlValue.str ("%" ++ keywords.getD "" ++ "%"),
           SqlValue.str ("%" ++ keywords.getD "" ++ "%"),
           SqlValue.str ("%" ++ keywords.getD "" ++ "%"),
           SqlValue.str ("%" ++ keywords.getD "" ++ "%")] else [])
        ++ (if truthyOptList tags then
            (tags.getD []).map (fun tag => SqlValue.str ("%" ++ tag ++ "%")) else [])
        ++ (if truthyOptInt fiscal_year_from then
            [SqlValue.int (fiscal_year_from.getD 0)] else [])
        ++ (if truthyOptInt fiscal_year_to then
            [SqlValue.int (fiscal_year_to.getD 0)] else [])
        ++ (if truthyOptInt award_amount_min then
            [SqlValue.int (award_amount_min.getD 0)] else [])
        ++ (if truthyOptInt award_amount_max then
            [SqlValue.int (award_amount_max.getD 0)] else []) := by
  simp only [buildSearchGrantsQuery]
  split_ifs <;> simp

theorem buildSearchJobsQuery_text (k1 k2 lo1 lo2 : Option String)
    (t1 t2 : Option (List String)) (j1 j2 : Option String) (sm1 sm2 : Option Int)
    (ir1 ir2 : Option Bool)
    (hk : truthyOptStr k1 = truthyOptStr k2)
    (hlo : truthyOptStr lo1 = truthyOptStr lo2)
    (ht : truthyOptList t1 = truthyOptList t2)
    (hlen : (t1.getD []).length = (t2.getD []).length)
    (hj : truthyOptStr j1 = truthyOptStr j2)
    (hsm : sm1.isSome = sm2.isSome)
    (hir : ir1.isSome = ir2.isSome) :
    (buildSearchJobsQuery k1 lo1 t1 j1 sm1 ir1).text
      = (buildSearchJobsQuery k2 lo2 t2 j2 sm2 ir2).text := by
  simp only [buildSearchJobsQuery]
  rw [← hk, ← hlo, ← ht, ← hj, ← hsm, ← hir,
    sepJoin_const (t1.getD []) (t2.getD []) hlen]

theorem buildSearchJobsQuery_params (keywords location : Option String)
    (tags : Option (List String)) (job_type : Option String) (salary_min : Option Int)
    (is_remote : Option Bool) :
    (buildSearchJobsQuery keywords location tags job_type salary_min is_remote).params
      = (if truthyOptStr keywords then
          [SqlValue.str ("%" ++ keywords.getD "" ++ "%"),
           SqlValue.str ("%" ++ keywords.getD "" ++ "%"),
           SqlValue.str ("%" ++ keywords.getD "" ++ "%")] else [])
        ++ (if truthyOptStr location then
            [SqlValue.str ("%" ++ location.getD "" ++ "%")] else [])
        ++ (if truthyOptList tags then
            (tags.getD []).map (fun tag => SqlValue.str ("%" ++ tag ++ "%")) else [])
        ++ (if truthyOptStr job_type then [SqlValue.str (job_type.getD "")] else [])
        ++ (if salary_min.isSome then
            [SqlValue.int (salary_min.getD 0), SqlValue.int (salary_min.getD 0)] else [])
        ++ (if is_remote.isSome then
            [SqlValue.int (if is_remote.getD false then 1 else 0)] else []) := by
  simp only [buildSearchJobsQuery]
  split_ifs <;> simp

/-! ### The claims -/

/-- C1: for every kind, upserting a record whose populated natural key
collides with a row already in the store returns the duplicate-skip
outcome (`False`) and leaves the whole table — every stored row with
its tags, notes and core fields — exactly as it was. -/
theorem upsert_duplicate_skipped_nondestructive :
    (∀ (store : List PaperRow) (p : PaperInput) (tags : List String)
        (notes : Option String) (ts : String),
        (∃ r ∈ store, paperConflict (mkPaperRow p tags notes ts) r = true) →
        save_paper store p tags notes ts = (false, store)) ∧
    (∀ (store : List GrantRow) (g : GrantInput) (tags : List String)
        (notes : Option String) (ts : String),
        (∃ r ∈ store, optConflict (mkGrantRow g tags notes ts).project_num r.project_num = true) →
        save_grant store g tags notes ts = (false, store)) ∧
    (∀ (store : List JobRow) (j : JobInput) (tags : List String)
        (notes : Option String) (status ts : String),
        (∃ r ∈ store, optConflict (mkJobRow j tags notes status ts).url r.url = true) →
        save_job store j tags notes status ts = (false, store)) :=
  ⟨save_paper_skipped, save_grant_skipped, save_job_skipped⟩

/-- C1 witness: re-upserting the stored PMID `7` with different tags
and notes returns `False` and leaves the stored row untouched. -/
theorem upsert_duplicate_skipped_nondestructive_witness :
    save_paper [w1Row] { pmid := some "7", title := some "dup" } ["x"] (some "changed") "t1"
      = (false, [w1Row]) :=
  upsert_duplicate_skipped_nondestructive.1 [w1Row] { pmid := some "7", title := some "dup" }
    ["x"] (some "changed") "t1" ⟨w1Row, by decide, by decide⟩

/-- C2 counterexample: a batch of five valid records plus one record
with an empty natural key yields `saved = 5, skipped = 1, errors = 0`:
the key-less record is counted as skipped, not as failed, so the
claimed `created = 5, failed = 1` outcome is false. -/
theorem batch_empty_key_not_counted_failed :
    (save_papers_batch [] c2Batch ["batch"] "t0").1 = ⟨5, 1, 0⟩ ∧
    (save_papers_batch [] c2Batch ["batch"] "t0").1.errors ≠ 1 :=
  ⟨by decide, by decide⟩

/-- C2 amended: every batch importer processes each record exactly once
and never aborts early — the three counters always sum to the batch
length — but a record rejected inside the save call (empty natural key
or duplicate) is counted as skipped; `errors` counts only exceptions
escaping the save call.  The 5-valid-plus-1-malformed batch yields
`saved = 5, skipped = 1, errors = 0` with all five valid records
persisted. -/
theorem batch_importer_never_aborts :
    (∀ (store : List PaperRow) (papers : List PaperInput) (tags : List String) (ts : String),
        (save_papers_batch store papers tags ts).1.saved
          + (save_papers_batch store papers tags ts).1.skipped
          + (save_papers_batch store papers tags ts).1.errors = papers.length) ∧
    (∀ (store : List GrantRow) (grants : List GrantInput) (tags : List String) (ts : String),
        (save_grants_batch store grants tags ts).1.saved
          + (save_grants_batch store grants tags ts).1.skipped
          + (save_grants_batch store grants tags ts).1.errors = grants.length) ∧
    (∀ (store : List JobRow) (jobs : List JobInput) (tags : List String)
        (status platform ts : String),
        (save_jobs_batch store jobs tags status platform ts).1.saved
          + (save_jobs_batch store jobs tags status platform ts).1.skipped
          + (save_jobs_batch store jobs tags status platform ts).1.errors = jobs.length) ∧
    ((save_papers_batch [] c2Batch ["batch"] "t0").1 = ⟨5, 1, 0⟩ ∧
      (save_papers_batch [] c2Batch ["batch"] "t0").2
        = (c2Batch.take 5).map (fun p => mkPaperRow p ["batch"] none "t0")) :=
  ⟨save_papers_batch_total, save_grants_batch_total, save_jobs_batch_total,
   by decide, by decide⟩

/-- C3 counterexample: a job record with no `url` is simply inserted —
`save_job` returns the created outcome and persists a row — and a
paper record with no identifier returns the same `False` as a
duplicate skip, so the claimed distinguishable `ValidationError` that
persists nothing is false. -/
theorem upsert_missing_key_not_validation_error :
    (save_job [] jobNoUrl [] none "new" "t0").1 = true ∧
    (save_job [] jobNoUrl [] none "new" "t0").2 ≠ [] ∧
    (save_paper [] paperNoIds [] none "t0").1 = false ∧
    save_paper [w1Row] { pmid := some "7", title := some "other" } [] none "t1"
      = (false, [w1Row]) :=
  ⟨by decide, by decide, by decide, by decide⟩

/-- C3 amended: a paper with neither identifier and a grant with no
`project_num` are rejected without persisting anything, but the
rejection returns the same `False` value as `DuplicateSkipped`; the
job kind performs no natural-key check at all — a record without a
`url` is inserted whenever `title` and `company` are present. -/
theorem upsert_missing_key_outcomes :
    (∀ (store : List PaperRow) (p : PaperInput) (tags : List String)
        (notes : Option String) (ts : String),
        truthyOptStr (extractId p.pmid) = false → truthyOptStr (extractId p.arxiv_id) = false →
        save_paper store p tags notes ts = (false, store)) ∧
    (∀ (store : List GrantRow) (g : GrantInput) (tags : List String)
        (notes : Option String) (ts : String),
        g.project_num = none →
        save_grant store g tags notes ts = (false, store)) ∧
    (∀ (store : List JobRow) (j : JobInput) (tags : List String)
        (notes : Option String) (status ts : String),
        j.url = none → j.title.isSome = true → j.company.isSome = true →
        save_job store j tags notes status ts =
          (true, store ++ [mkJobRow j tags notes status ts])) := by
  refine ⟨?_, ?_, ?_⟩
  · intro store p tags notes ts h1 h2
    have hval : (!truthyOptStr (mkPaperRow p tags notes ts).pmid &&
        !truthyOptStr (mkPaperRow p tags notes ts).arxiv_id) = true := by
      have e1 : (mkPaperRow p tags notes ts).pmid = extractId p.pmid := rfl
      have e2 : (mkPaperRow p tags notes ts).arxiv_id = extractId p.arxiv_id := rfl
      rw [e1, e2, h1, h2]
      rfl
    simp only [save_paper, hval]
    simp
  · intro store g tags notes ts h
    have hval : ((mkGrantRow g tags notes ts).project_num.isNone ||
        (mkGrantRow g tags notes ts).title.isNone) = true := by
      have e : (mkGrantRow g tags notes ts).project_num = g.project_num := rfl
      rw [e, h]
      rfl
    simp only [save_grant, hval]
    simp
  · intro store j tags notes status ts hurl htitle hcomp
    have h1 : ((mkJobRow j tags notes status ts).title.isNone ||
        (mkJobRow j tags notes status ts).company.isNone) = false := by
      have e1 : (mkJobRow j tags notes status ts).title = j.title := rfl
      have e2 : (mkJobRow j tags notes status ts).company = j.company := rfl
      rcases Option.isSome_iff_exists.mp htitle with ⟨a, ha⟩
      rcases Option.isSome_iff_exists.mp hcomp with ⟨b, hb⟩
      rw [e1, e2, ha, hb]
      rfl
    have h2 : (store.any fun r =>
        optConflict (mkJobRow j tags notes status ts).url r.url) = false := by
      have e : (mkJobRow j tags notes status ts).url = j.url := rfl
      rw [List.any_eq_false]
      intro r hr
      rw [e, hurl]
      simp [optConflict]
    simp only [save_job, h1, h2]
    simp

/-- C3 amended witness: the three outcomes at concrete records. -/
theorem upsert_missing_key_outcomes_witness :
    save_paper [] paperNoIds ["x"] none "t0" = (false, []) ∧
    save_grant [] { title := some "G" } [] none "t0" = (false, []) ∧
    save_job [] jobNoUrl [] none "new" "t0" = (true, [] ++ [mkJobRow jobNoUrl [] none "new" "t0"]) :=
  ⟨upsert_missing_key_outcomes.1 [] paperNoIds ["x"] none "t0" (by decide) (by decide),
   upsert_missing_key_outcomes.2.1 [] { title := some "G" } [] none "t0" rfl,
   upsert_missing_key_outcomes.2.2 [] jobNoUrl [] none "new" "t0" rfl (by decide) (by decide)⟩

/-- C4: for every kind, a tag edit with a replacement list yields that
list as a set, and otherwise yields `(current ∪ add) − remove`, with
`add` applied before `remove`, so a tag in both `add` and `remove`
ends up absent; editing `{a,b}` with add `{b,c}` and remove `{b}`
yields `{a,c}`. -/
theorem tag_edit_algebra :
    (∀ (current : String) (ts : List String) (add rm : Option (List String)),
        (∀ t ∈ ts, t ≠ "" ∧ ',' ∉ t.data) →
        parseTags (applyTagEditPaper current (some ts) add rm) = ts.toFinset ∧
        parseTags (applyTagEditGrant current (some ts) add rm) = ts.toFinset ∧
        parseTags (applyTagEditJob current (some ts) add rm) = ts.toFinset) ∧
    (∀ (current : String) (add rm : List String),
        (∀ t ∈ add, t ≠ "" ∧ ',' ∉ t.data) →
        parseTags (applyTagEditPaper current none (some add) (some rm)) =
          (parseTags current ∪ add.toFinset) \ rm.toFinset ∧
        parseTags (applyTagEditGrant current none (some add) (some rm)) =
          (parseTags current ∪ add.toFinset) \ rm.toFinset ∧
        parseTags (applyTagEditJob current none (some add) (some rm)) =
          (parseTags current ∪ add.toFinset) \ rm.toFinset) ∧
    parseTags (applyTagEditPaper "a,b" none (some ["b", "c"]) (some ["b"])) =
      ({"a", "c"} : Finset String) := by
  refine ⟨?_, ?_, by decide⟩
  · intro current ts add rm h
    have hpaper : parseTags (applyTagEditPaper current (some ts) add rm) = ts.toFinset := by
      show parseTags (serializeTags ts.toFinset) = ts.toFinset
      exact parse_serialize _ (fun t ht => h t (List.mem_toFinset.mp ht))
    have hgrant : parseTags (applyTagEditGrant current (some ts) add rm) = ts.toFinset := by
      show parseTags (joinComma ts) = ts.toFinset
      cases ts with
      | nil => decide
      | cons u us =>
        unfold parseTags
        rw [splitComma_joinComma (u :: us) (by simp) (fun t ht => (h t ht).2)]
        exact Finset.erase_eq_of_not_mem
          (fun hmem => (h "" (List.mem_toFinset.mp hmem)).1 rfl)
    exact ⟨hpaper, hgrant, hgrant⟩
  · intro current add rm h
    have hpaper : parseTags (applyTagEditPaper current none (some add) (some rm)) =
        (parseTags current ∪ add.toFinset) \ rm.toFinset := by
      show parseTags (serializeTags ((parseTags current ∪ add.toFinset) \ rm.toFinset)) = _
      exact parse_serialize _ (editSet_tokens current add rm h)
    have hgrant : parseTags (applyTagEditGrant current none (some add) (some rm)) =
        (parseTags current ∪ add.toFinset) \ rm.toFinset := by
      show parseTags (if add = [] ∧ rm = [] then current
          else serializeTags ((parseTags current ∪ add.toFinset) \ rm.toFinset)) = _
      by_cases hboth : add = [] ∧ rm = []
      · rw [if_pos hboth]
        rcases hboth with ⟨ha, hr⟩
        subst ha
        subst hr
        simp
      · rw [if_neg hboth]
        exact parse_serialize _ (editSet_tokens current add rm h)
    exact ⟨hpaper, hgrant, hgrant⟩

/-- C4 witness: a replacement edit and an add/remove edit evaluated at
concrete tag strings. -/
theorem tag_edit_algebra_witness :
    parseTags (applyTagEditPaper "x,y" (some ["a"]) none none) =
      (["a"] : List String).toFinset ∧
    parseTags (applyTagEditGrant "a,b" none (some ["b", "c"]) (some ["b"])) =
      (parseTags "a,b" ∪ (["b", "c"] : List String).toFinset)
        \ (["b"] : List String).toFinset :=
  ⟨(tag_edit_algebra.1 "x,y" ["a"] none none (by decide)).1,
   (tag_edit_algebra.2.1 "a,b" ["b", "c"] ["b"] (by decide)).2.1⟩

/-- C5 counterexample: the set `{""}` has no element containing a
comma, yet it serializes to the empty string, which parses back to the
empty set — the claimed round trip fails on empty tokens. -/
theorem tag_roundtrip_fails_on_empty_token :
    (∀ t ∈ ({""} : Finset String), ',' ∉ t.data) ∧
    parseTags (serializeTags ({""} : Finset String)) ≠ ({""} : Finset String) :=
  ⟨by decide, by decide⟩

/-- C5 amended: parsing the serialization is the identity on every tag
set whose elements are non-empty and contain no comma. -/
theorem tag_roundtrip_nonempty_tokens (s : Finset String)
    (h : ∀ t ∈ s, t ≠ "" ∧ ',' ∉ t.data) :
    parseTags (serializeTags s) = s :=
  parse_serialize s h

/-- C5 amended witness: the round trip at `{"b", "a"}`. -/
theorem tag_roundtrip_nonempty_tokens_witness :
    parseTags (serializeTags ({"b", "a"} : Finset String)) = {"b", "a"} :=
  tag_roundtrip_nonempty_tokens {"b", "a"} (by decide)

/-- C6: importing a batch of records with pairwise-distinct populated
natural keys into an empty store creates all of them, and importing
the same batch again skips all of them and leaves the persisted rows
unchanged. -/
theorem batch_import_idempotent (papers : List PaperInput) (tags : List String)
    (ts₁ ts₂ : String)
    (hpop : ∀ p ∈ papers, paperPopulated p = true)
    (hdist : papers.Pairwise (fun p q =>
      paperConflict (mkPaperRow p tags none ts₁) (mkPaperRow q tags none ts₁) = false)) :
    save_papers_batch [] papers tags ts₁ =
      (⟨papers.length, 0, 0⟩, papers.map (fun p => mkPaperRow p tags none ts₁)) ∧
    save_papers_batch (papers.map (fun p => mkPaperRow p tags none ts₁)) papers tags ts₂ =
      (⟨0, papers.length, 0⟩, papers.map (fun p => mkPaperRow p tags none ts₁)) := by
  constructor
  · have h := save_papers_batch_all_new papers tags ts₁ [] hpop
      (by intro p _ r hr; simp at hr) hdist
    simpa using h
  · apply save_papers_batch_all_dup
    intro p hp
    exact ⟨mkPaperRow p tags none ts₁,
      List.mem_map_of_mem (fun p => mkPaperRow p tags none ts₁) hp,
      paperConflict_self p tags tags none none ts₂ ts₁ (hpop p hp)⟩

/-- C6 witness: a two-record batch imported twice. -/
theorem batch_import_idempotent_witness :
    save_papers_batch [] [p6a, p6b] ["t"] "t1" =
      (⟨[p6a, p6b].length, 0, 0⟩, [p6a, p6b].map (fun p => mkPaperRow p ["t"] none "t1")) ∧
    save_papers_batch ([p6a, p6b].map (fun p => mkPaperRow p ["t"] none "t1"))
        [p6a, p6b] ["t"] "t2" =
      (⟨0, [p6a, p6b].length, 0⟩, [p6a, p6b].map (fun p => mkPaperRow p ["t"] none "t1")) :=
  batch_import_idempotent [p6a, p6b] ["t"] "t1" "t2" (by decide) (by decide)

/-- C7 counterexample: a paper tagged `genomics` is returned by a
search for the tag `gen`, although `gen` is not a member of its tag
set — the filter is not an exact membership test. -/
theorem tags_filter_matches_substring :
    searchPapersByTags [paperGen] ["gen"] = [paperGen] ∧
    "gen" ∉ parseTags paperGen.tags :=
  ⟨by decide, by decide⟩

/-- C7 amended: a tags filter is a substring test against the stored
serialized tag string — all filter tags must occur for papers, at
least one for grants and jobs; exact membership in the stored tag set
implies a match (but not conversely), and the `{genomics, physics}`
any-combinator example returns both stored grants. -/
theorem tags_filter_substring_semantics :
    (∀ (store : List PaperRow) (tags : List String) (r : PaperRow),
        r ∈ searchPapersByTags store tags ↔ r ∈ store ∧ paperTagsWhere tags r = true) ∧
    (∀ (store : List GrantRow) (tags : List String) (r : GrantRow),
        r ∈ searchGrantsByTags store tags ↔ r ∈ store ∧ grantTagsWhere tags r = true) ∧
    (∀ (store : List JobRow) (tags : List String) (r : JobRow),
        r ∈ searchJobsByTags store tags ↔ r ∈ store ∧ jobTagsWhere tags r = true) ∧
    (∀ s t : String, t ∈ parseTags s → likeContains t s = true) ∧
    searchGrantsByTags [grantG1, grantG2] ["genomics", "physics"] = [grantG1, grantG2] :=
  ⟨fun _ _ _ => List.mem_filter,
   fun _ _ _ => List.mem_filter,
   fun _ _ _ => List.mem_filter,
   likeContains_of_mem_parseTags,
   by decide⟩

/-- C7 amended witness: a stored tag matches itself as a substring. -/
theorem tags_filter_substring_semantics_witness :
    likeContains "genomics" grantG1.tags = true :=
  tags_filter_substring_semantics.2.2.2.1 grantG1.tags "genomics" (by decide)

/-- C8 counterexample: upserting with tags `["b","a"]` stores the raw
string `b,a`, not the canonical `a,b`; the two stored strings have
equal tag sets but are syntactically different, so the claimed
canonical-serialization invariant is false. -/
theorem upsert_tags_not_canonical :
    (mkPaperRow { pmid := some "1", title := some "T" } ["b", "a"] none "t0").tags = "b,a" ∧
    serializeTags (parseTags "b,a") = "a,b" ∧
    ("b,a" : String) ≠ "a,b" ∧
    parseTags "b,a" = parseTags "a,b" :=
  ⟨by decide, by decide, by decide, by decide⟩

/-- C8 amended: every paper tag edit (and every grant/job add/remove
edit) stores the canonical sorted serialization of its tag set, but
the upserters store the caller's tag list joined in the given order,
so the canonical-form invariant holds only on the tag-edit paths. -/
theorem tags_canonical_only_for_edits :
    (∀ (current : String) (tags add rm : Option (List String)),
        (∀ t ∈ tags.getD [], t ≠ "" ∧ ',' ∉ t.data) →
        (∀ t ∈ add.getD [], t ≠ "" ∧ ',' ∉ t.data) →
        serializeTags (parseTags (applyTagEditPaper current tags add rm)) =
          applyTagEditPaper current tags add rm) ∧
    (∀ (current : String) (add rm : Option (List String)),
        (∀ t ∈ add.getD [], t ≠ "" ∧ ',' ∉ t.data) →
        ¬(add.getD [] = [] ∧ rm.getD [] = []) →
        serializeTags (parseTags (applyTagEditGrant current none add rm)) =
          applyTagEditGrant current none add rm) ∧
    (∀ (p : PaperInput) (tags : List String) (notes : Option String) (ts : String),
        (mkPaperRow p tags notes ts).tags = joinComma tags) ∧
    (∀ (g : GrantInput) (tags : List String) (notes : Option String) (ts : String),
        (mkGrantRow g tags notes ts).tags = joinComma tags) ∧
    (∀ (j : JobInput) (tags : List String) (notes : Option String) (status ts : String),
        (mkJobRow j tags notes status ts).tags = joinComma tags) := by
  refine ⟨?_, ?_, fun _ _ _ _ => rfl, fun _ _ _ _ => rfl, fun _ _ _ _ _ => rfl⟩
  · intro current tags add rm htags hadd
    cases tags with
    | none =>
      show serializeTags (parseTags (serializeTags
        ((parseTags current ∪ (add.getD []).toFinset) \ (rm.getD []).toFinset))) = _
      exact serializeTags_canonical _ (editSet_tokens current (add.getD []) (rm.getD []) hadd)
    | some ts =>
      show serializeTags (parseTags (serializeTags ts.toFinset)) = serializeTags ts.toFinset
      exact serializeTags_canonical _ (fun t ht => htags t (List.mem_toFinset.mp ht))
  · intro current add rm hadd hne
    show serializeTags (parseTags (if add.getD [] = [] ∧ rm.getD [] = [] then current
        else serializeTags
          ((parseTags current ∪ (add.getD []).toFinset) \ (rm.getD []).toFinset)))
      = (if add.getD [] = [] ∧ rm.getD [] = [] then current
        else serializeTags
          ((parseTags current ∪ (add.getD []).toFinset) \ (rm.getD []).toFinset))
    rw [if_neg hne]
    exact serializeTags_canonical _ (editSet_tokens current (add.getD []) (rm.getD []) hadd)

/-- C8 amended witness: an add edit on `b,a` stores a canonical
string. -/
theorem tags_canonical_only_for_edits_witness :
    serializeTags (parseTags (applyTagEditPaper "b,a" none (some ["c"]) none)) =
      applyTagEditPaper "b,a" none (some ["c"]) none :=
  tags_canonical_only_for_edits.1 "b,a" none (some ["c"]) none (by decide) (by decide)

/-- C9 counterexample: changing only the `limit` value changes the
constructed SQL text of `load_papers` while the bound parameters stay
the same — the result limit is interpolated, not bound. -/
theorem limit_interpolated_into_text :
    (buildLoadPapersQuery (some 1) none none).params
      = (buildLoadPapersQuery (some 2) none none).params ∧
    (buildLoadPapersQuery (some 1) none none).text
      ≠ (buildLoadPapersQuery (some 2) none none).text :=
  ⟨by decide, by decide⟩

/-- C9 amended: for every search and load operation of the three
kinds, every supplied filter value — keywords, location, tags,
categorical values (source, agency, status, platform, job type,
remote flag) and numeric range bounds (year, fiscal year, award
amount, salary) — is passed exclusively as a bound parameter: the
bound-parameter list is exactly the supplied values in clause order,
and the query text is independent of all the values, depending only
on which filters are present and on the number of tags — except the
result limit of the load operations, which is interpolated into the
text. -/
theorem query_text_independent_except_limit :
    (∀ (limit : Option Int) (t1 t2 : Option (List String)) (s1 s2 : Option String),
        truthyOptList t1 = truthyOptList t2 →
        (t1.getD []).length = (t2.getD []).length →
        truthyOptStr s1 = truthyOptStr s2 →
        (buildLoadPapersQuery limit t1 s1).text = (buildLoadPapersQuery limit t2 s2).text) ∧
    (∀ (limit : Option Int) (tags : Option (List String)) (source : Option String),
        (buildLoadPapersQuery limit tags source).params
          = (if truthyOptStr source then [SqlValue.str (source.getD "")] else [])
            ++ (if truthyOptList tags then
                (tags.getD []).map (fun tag => SqlValue.str ("%" ++ tag ++ "%")) else [])) ∧
    (∀ (limit : Option Int) (t1 t2 : Option (List String)) (a1 a2 : Option String)
        (f1 f2 : Option Int),
        truthyOptList t1 = truthyOptList t2 →
        (t1.getD []).length = (t2.getD []).length →
        truthyOptStr a1 = truthyOptStr a2 → truthyOptInt f1 = truthyOptInt f2 →
        (buildLoadGrantsQuery limit t1 a1 f1).text
          = (buildLoadGrantsQuery limit t2 a2 f2).text) ∧
    (∀ (limit : Option Int) (tags : Option (List String)) (agency : Option String)
        (fiscal_year : Option Int),
        (buildLoadGrantsQuery limit tags agency fiscal_year).params
          = (if truthyOptList tags then
              (tags.getD []).map (fun tag => SqlValue.str ("%" ++ tag ++ "%")) else [])
            ++ (if truthyOptStr agency then [SqlValue.str (agency.getD "")] else [])
            ++ (if truthyOptInt fiscal_year then
                [SqlValue.int (fiscal_year.getD 0)] else [])) ∧
    (∀ (limit : Option Int) (t1 t2 : Option (List String)) (st1 st2 pl1 pl2 : Option String)
        (ir1 ir2 : Option Bool),
        truthyOptList t1 = truthyOptList t2 →
        (t1.getD []).length = (t2.getD []).length →
        truthyOptStr st1 = truthyOptStr st2 → truthyOptStr pl1 = truthyOptStr pl2 →
        ir1.isSome = ir2.isSome →
        (buildLoadJobsQuery limit t1 st1 pl1 ir1).text
          = (buildLoadJobsQuery limit t2 st2 pl2 ir2).text) ∧
    (∀ (limit : Option Int) (tags : Option (List String)) (status platform : Option String)
        (is_remote : Option Bool),
        (buildLoadJobsQuery limit tags status platform is_remote).params
          = (if truthyOptList tags then
              (tags.getD []).map (fun tag => SqlValue.str ("%" ++ tag ++ "%")) else [])
            ++ (if truthyOptStr status then [SqlValue.str (status.getD "")] else [])
            ++ (if truthyOptStr platform then [SqlValue.str (platform.getD "")] else [])
            ++ (if is_remote.isSome then
                [SqlValue.int (if is_remote.getD false then 1 else 0)] else [])) ∧
    (∀ (k1 k2 : Option String) (t1 t2 : Option (List String)) (yf1 yf2 yt1 yt2 : Option Int)
        (s1 s2 : Option String),
        truthyOptStr k1 = truthyOptStr k2 → truthyOptList t1 = truthyOptList t2 →
        (t1.getD []).length = (t2.getD []).length →
        truthyOptInt yf1 = truthyOptInt yf2 → truthyOptInt yt1 = truthyOptInt yt2 →
        truthyOptStr s1 = truthyOptStr s2 →
        (buildSearchPapersQuery k1 t1 yf1 yt1 s1).text
          = (buildSearchPapersQuery k2 t2 yf2 yt2 s2).text) ∧
    (∀ (keywords : Option String) (tags : Option (List String))
        (year_from year_to : Option Int) (source : Option String),
        (buildSearchPapersQuery keywords tags year_from year_to source).params
          = (if truthyOptStr keywords then
              [SqlValue.str ("%" ++ keywords.getD "" ++ "%"),
               SqlValue.str ("%" ++ keywords.getD "" ++ "%"),
               SqlValue.str ("%" ++ keywords.getD "" ++ "%")] else [])
            ++ (if truthyOptList tags then
                (tags.getD []).map (fun tag => SqlValue.str ("%" ++ tag ++ "%")) else [])
            ++ (if truthyOptInt year_from then [SqlValue.int (year_from.getD 0)] else [])
            ++ (if truthyOptInt year_to then [SqlValue.int (year_to.getD 0)] else [])
            ++ (if truthyOptStr source then [SqlValue.str (source.getD "")] else [])) ∧
    (∀ (k1 k2 : Option String) (t1 t2 : Option (List String))
        (ff1 ff2 ft1 ft2 am1 am2 ax1 ax2 : Option Int),
        truthyOptStr k1 = truthyOptStr k2 → truthyOptList t1 = truthyOptList t2 →
        (t1.getD []).length = (t2.getD []).length →
        truthyOptInt ff1 = truthyOptInt ff2 → truthyOptInt ft1 = truthyOptInt ft2 →
        truthyOptInt am1 = truthyOptInt am2 → truthyOptInt ax1 = truthyOptInt ax2 →
        (buildSearchGrantsQuery k1 t1 ff1 ft1 am1 ax1).text
          = (buildSearchGrantsQuery k2 t2 ff2 ft2 am2 ax2).text) ∧
    (∀ (keywords : Option String) (tags : Option (List String))
        (fiscal_year_from fiscal_year_to award_amount_min award_amount_max : Option Int),
        (buildSearchGrantsQuery keywords tags fiscal_year_from fiscal_year_to
            award_amount_min award_amount_max).params
          = (if truthyOptStr keywords then
              [SqlValue.str ("%" ++ keywords.getD "" ++ "%"),
               SqlValue.str ("%" ++ keywords.getD "" ++ "%"),
               SqlValue.str ("%" ++ keywords.getD "" ++ "%"),
               SqlValue.str ("%" ++ keywords.getD "" ++ "%")] else [])
            ++ (if truthyOptList tags then
                (tags.getD []).map (fun tag => SqlValue.str ("%" ++ tag ++ "%")) else [])
            ++ (if truthyOptInt fiscal_year_from then
                [SqlValue.int (fiscal_year_from.getD 0)] else [])
            ++ (if truthyOptInt fiscal_year_to then
                [SqlValue.int (fiscal_year_to.getD 0)] else [])
            ++ (if truthyOptInt award_amount_min then
                [SqlValue.int (award_amount_min.getD 0)] else [])
            ++ (if truthyOptInt award_amount_max then
                [SqlValue.int (award_amount_max.getD 0)] else [])) ∧
    (∀ (k1 k2 lo1 lo2 : Option String) (t1 t2 : Option (List String))
        (j1 j2 : Option String) (sm1 sm2 : Option Int) (ir1 ir2 : Option Bool),
        truthyOptStr k1 = truthyOptStr k2 → truthyOptStr lo1 = truthyOptStr lo2 →
        truthyOptList t1 = truthyOptList t2 →
        (t1.getD []).length = (t2.getD []).length →
        truthyOptStr j1 = truthyOptStr j2 → sm1.isSome = sm2.isSome →
        ir1.isSome = ir2.isSome →
        (buildSearchJobsQuery k1 lo1 t1 j1 sm1 ir1).text
          = (buildSearchJobsQuery k2 lo2 t2 j2 sm2 ir2).text) ∧
    (∀ (keywords location : Option String) (tags : Option (List String))
        (job_type : Option String) (salary_min : Option Int) (is_remote : Option Bool),
        (buildSearchJobsQuery keywords location tags job_type salary_min is_remote).params
          = (if truthyOptStr keywords then
              [SqlValue.str ("%" ++ keywords.getD "" ++ "%"),
               SqlValue.str ("%" ++ keywords.getD "" ++ "%"),
               SqlValue.str ("%" ++ keywords.getD "" ++ "%")] else [])
            ++ (if truthyOptStr location then
                [SqlValue.str ("%" ++ location.getD "" ++ "%")] else [])
            ++ (if truthyOptList tags then
                (tags.getD []).map (fun tag => SqlValue.str ("%" ++ tag ++ "%")) else [])
            ++ (if truthyOptStr job_type then [SqlValue.str (job_type.getD "")] else [])
            ++ (if salary_min.isSome then
                [SqlValue.int (salary_min.getD 0), SqlValue.int (salary_min.getD 0)]
               else [])
            ++ (if is_remote.isSome then
                [SqlValue.int (if is_remote.getD false then 1 else 0)] else [])) :=
  ⟨buildLoadPapersQuery_text, buildLoadPapersQuery_params,
   buildLoadGrantsQuery_text, buildLoadGrantsQuery_params,
   buildLoadJobsQuery_text, buildLoadJobsQuery_params,
   buildSearchPapersQuery_text, buildSearchPapersQuery_params,
   buildSearchGrantsQuery_text, buildSearchGrantsQuery_params,
   buildSearchJobsQuery_text, buildSearchJobsQuery_params⟩

/-- C9 amended witness: two full-text paper searches with different
keyword, tag, year-bound and source values but the same filter shape
produce identical SQL text. -/
theorem query_text_independent_except_limit_witness :
    (buildSearchPapersQuery (some "CRISPR") (some ["genomics"]) (some 2020) (some 2024)
        (some "PubMed")).text
      = (buildSearchPapersQuery (some "quantum") (some ["phys"]) (some 1999) (some 2005)
        (some "arXiv")).text :=
  query_text_independent_except_limit.2.2.2.2.2.2.1
    (some "CRISPR") (some "quantum") (some ["genomics"]) (some ["phys"])
    (some 2020) (some 1999) (some 2024) (some 2005) (some "PubMed") (some "arXiv")
    (by decide) (by decide) (by decide) (by decide) (by decide) (by decide)

/-- C10: under `id_type = "auto"`, the paper operations match the
`arxiv_id` column exactly when the identifier contains a dot and the
`pmid` column otherwise, so a stored row whose pmid contains a dot is
unreachable under `auto` unless its arXiv id coincides. -/
theorem auto_id_dot_heuristic :
    (∀ pid : String,
        (resolveIdType pid "auto" = "arxiv_id" ↔ pid.data.contains '.' = true) ∧
        (resolveIdType pid "auto" = "pmid" ↔ pid.data.contains '.' = false)) ∧
    (∀ (store : List PaperRow) (pid : String) (r : PaperRow),
        lookupPaper store pid "auto" = some r →
        r ∈ store ∧
          (if pid.data.contains '.' = true then r.arxiv_id = some pid
           else r.pmid = some pid)) ∧
    (∀ (store : List PaperRow) (pid : String),
        pid.data.contains '.' = true → (∀ r ∈ store, r.arxiv_id ≠ some pid) →
        lookupPaper store pid "auto" = none) := by
  refine ⟨?_, ?_, ?_⟩
  · intro pid
    have hres : resolveIdType pid "auto"
        = (if pid.data.contains '.' = true then "arxiv_id" else "pmid") := rfl
    cases hb : pid.data.contains '.' with
    | false =>
      rw [hres, hb, if_neg (by simp)]
      exact ⟨by simp, by simp⟩
    | true =>
      rw [hres, hb, if_pos rfl]
      exact ⟨by simp, by simp⟩
  · intro store pid r hfind
    have hres : resolveIdType pid "auto"
        = (if pid.data.contains '.' = true then "arxiv_id" else "pmid") := rfl
    have hmem := List.mem_of_find?_eq_some hfind
    have hp := List.find?_some hfind
    refine ⟨hmem, ?_⟩
    cases hb : pid.data.contains '.' with
    | true =>
      rw [hres, hb, if_pos rfl] at hp
      have hkm : paperKeyMatches "arxiv_id" pid r = decide (r.arxiv_id = some pid) := rfl
      rw [hkm] at hp
      rw [if_pos rfl]
      exact of_decide_eq_true hp
    | false =>
      rw [hres, hb, if_neg (by simp)] at hp
      have hkm : paperKeyMatches "pmid" pid r = decide (r.pmid = some pid) := rfl
      rw [hkm] at hp
      rw [if_neg (by simp)]
      exact of_decide_eq_true hp
  · intro store pid hdot hnone
    have hres : resolveIdType pid "auto"
        = (if pid.data.contains '.' = true then "arxiv_id" else "pmid") := rfl
    unfold lookupPaper
    rw [hres, hdot, if_pos rfl]
    rw [List.find?_eq_none]
    intro r hr
    have hkm : paperKeyMatches "arxiv_id" pid r = decide (r.arxiv_id = some pid) := rfl
    rw [hkm]
    simp only [decide_eq_true_eq]
    exact hnone r hr

/-- C10 witness: the stored arXiv row `2301.07041` is reachable under
`auto` and its dotted identifier selects the `arxiv_id` column. -/
theorem auto_id_dot_heuristic_witness :
    paperArx ∈ [paperArx] ∧
    (if ("2301.07041" : String).data.contains '.' = true
     then paperArx.arxiv_id = some "2301.07041"
     else paperArx.pmid = some "2301.07041") :=
  auto_id_dot_heuristic.2.1 [paperArx] "2301.07041" paperArx (by decide)

end ResearchPilot
